import Mathlib

/-!
Verification of the reconciliation & sync engine of a ledger-to-accounting
invoice sync service.  The TypeScript services (invoice validation, invoice
sync, customer matching, SKU matching, fuzzy text matching) are shallowly
embedded as pure Lean functions: JavaScript numbers are modelled as exact
rationals, database tables as lists of rows threaded through each operation,
and the remote accounting API plus the document store as explicit
environments.  `Math.round` is modelled by `round` on `ℚ` (both round
half-up).  Effects on the remote system are tracked as an explicit trace.
-/

namespace AtekQbSync

/-! ## Jurisdictional tax computation (invoice-sync.ts, buildQCTaxDetail)

Quebec TPS (5 %) and TVQ (9.975 %) components, each rounded to cents
independently, summed into a total-tax figure. -/

/-- QuickBooks tax code id used for taxable lines ("TPS/TVQ QC - 9,975"). -/
def QB_TAX_CODE_TAXABLE : String := "9"

/-- QuickBooks tax-rate id of the TPS (GST 5 %) rate. -/
def QB_TAX_RATE_TPS : String := "7"

/-- QuickBooks tax-rate id of the TVQ (QST 9.975 %) rate. -/
def QB_TAX_RATE_TVQ : String := "21"

/-- TPS percentage (5). -/
def QB_TAX_PERCENT_TPS : ℚ := 5

/-- TVQ percentage (9.975). -/
def QB_TAX_PERCENT_TVQ : ℚ := 9975 / 1000

/-- One `TaxLine` entry of a QuickBooks `TxnTaxDetail`. -/
structure TaxLine where
  Amount : ℚ
  TaxRateRef : String
  TaxPercent : ℚ
  NetAmountTaxable : ℚ
deriving Repr, DecidableEq

/-- The `TxnTaxDetail` block sent with every created or updated invoice. -/
structure TxnTaxDetail where
  TxnTaxCodeRef : String
  TotalTax : ℚ
  TaxLine : List TaxLine
deriving Repr, DecidableEq, Inhabited

/-- `buildQCTaxDetail(subtotal)`: `tpsAmount = Math.round(subtotal*5)/100`,
`tvqAmount = Math.round(subtotal*9.975)/100`,
`totalTax = Math.round((tpsAmount+tvqAmount)*100)/100`. -/
def buildQCTaxDetail (subtotal : ℚ) : TxnTaxDetail :=
  let tpsAmount : ℚ := (round (subtotal * QB_TAX_PERCENT_TPS) : ℤ) / 100
  let tvqAmount : ℚ := (round (subtotal * QB_TAX_PERCENT_TVQ) : ℤ) / 100
  let totalTax : ℚ := (round ((tpsAmount + tvqAmount) * 100) : ℤ) / 100
  { TxnTaxCodeRef := QB_TAX_CODE_TAXABLE
    TotalTax := totalTax
    TaxLine := [
      { Amount := tpsAmount
        TaxRateRef := QB_TAX_RATE_TPS
        TaxPercent := QB_TAX_PERCENT_TPS
        NetAmountTaxable := subtotal },
      { Amount := tvqAmount
        TaxRateRef := QB_TAX_RATE_TVQ
        TaxPercent := QB_TAX_PERCENT_TVQ
        NetAmountTaxable := subtotal }] }

/-- Rounding a rational amount to whole cents (the spec's "rounded to cents"). -/
def roundToCents (x : ℚ) : ℚ := (round (x * 100) : ℤ) / 100

/-! ## Fuzzy text matching (lib/fuzzy-match.ts)

Strings are modelled at the character level.  `normalize('NFD')` is modelled
as the identity followed by removal of combining marks (faithful for strings
without precomposed accented characters, which is the range exercised here);
`toLowerCase` is modelled by `Char.toLower` and the regex classes `\w`, `\s`,
`\d` by their ASCII meaning. -/

/-- JavaScript `\s` (whitespace) restricted to the common ASCII cases. -/
def isSpaceChar (c : Char) : Bool :=
  c = ' ' || c = '\t' || c = '\n' || c = '\r'

/-- JavaScript `\w`: `[A-Za-z0-9_]`. -/
def isWordChar (c : Char) : Bool :=
  ('a' ≤ c && c ≤ 'z') || ('A' ≤ c && c ≤ 'Z') || ('0' ≤ c && c ≤ '9') || c = '_'

/-- Unicode combining diacritical marks U+0300–U+036F. -/
def isCombiningMark (c : Char) : Bool :=
  0x300 ≤ c.val && c.val ≤ 0x36F

/-- Drop leading and trailing whitespace (JS `String.prototype.trim`). -/
def trimChars (l : List Char) : List Char :=
  ((l.dropWhile isSpaceChar).reverse.dropWhile isSpaceChar).reverse

/-- Replace every run of whitespace by a single space (regex `\s+` → `' '`).
The boolean argument records whether the previous character was whitespace. -/
def collapseSpacesAux : List Char → Bool → List Char
  | [], _ => []
  | c :: rest, prevSpace =>
    if isSpaceChar c then
      if prevSpace then collapseSpacesAux rest true
      else ' ' :: collapseSpacesAux rest true
    else c :: collapseSpacesAux rest false

/-- `normalizeString`: lowercase, trim, strip diacritic marks, replace
non-word non-space characters by a space, collapse whitespace, trim. -/
def normalizeString (s : String) : String :=
  let cs := s.data.map Char.toLower
  let cs := trimChars cs
  let cs := cs.filter (fun c => !isCombiningMark c)
  let cs := cs.map (fun c => if !isWordChar c && !isSpaceChar c then ' ' else c)
  let cs := collapseSpacesAux cs false
  String.mk (trimChars cs)

/-- One inner pass of the Levenshtein dynamic-programming matrix: given the
previous row suffix starting at the diagonal cell and the cell to the left,
produce the rest of the current row (`matrix[i][j]` for the remaining `j`). -/
def levRowAux (bc : Char) : List Char → List Nat → Nat → List Nat
  | [], _, _ => []
  | _ :: _, [], _ => []
  | ac :: arest, pdiag :: ptail, left =>
    let pup := ptail.headD 0
    let cell :=
      if bc = ac then pdiag
      else Nat.min (Nat.min (pdiag + 1) (left + 1)) (pup + 1)
    cell :: levRowAux bc arest ptail cell

/-- Fill the DP matrix row by row over the characters of `b`. -/
def levRows (a : List Char) : List Char → List Nat → Nat → List Nat
  | [], prev, _ => prev
  | bc :: brest, prev, i =>
    levRows a brest ((i + 1) :: levRowAux bc a prev (i + 1)) (i + 1)

/-- `levenshteinDistance(a, b)`: classic DP edit distance (insert, delete,
substitute at cost 1), with the source's explicit empty-string shortcuts. -/
def levenshteinDistance (a b : String) : Nat :=
  if a.data.length = 0 then b.data.length
  else if b.data.length = 0 then a.data.length
  else (levRows a.data b.data (List.range (a.data.length + 1)) 0).getLastD 0

/-- `stringSimilarity(a, b)`: `1 − distance/maxLength` over normalized
strings, with empty-string conventions and an early exit on equality. -/
def stringSimilarity (a b : String) : ℚ :=
  if a = "" && b = "" then 1
  else if a = "" || b = "" then 0
  else
    let na := normalizeString a
    let nb := normalizeString b
    if na = nb then 1
    else
      let distance := levenshteinDistance na nb
      let maxLength := max na.length nb.length
      if maxLength = 0 then 1 else 1 - (distance : ℚ) / (maxLength : ℚ)

/-- Append a token if not already present (JS `Set` insertion order). -/
def insertUniqueToken (acc : List String) (t : String) : List String :=
  if t ∈ acc then acc else acc ++ [t]

/-- JS `split(' ')` over the character list (single-character separator;
empty pieces are kept, as in JavaScript). -/
def splitOnSpaceChar : List Char → List Char → List String
  | [], cur => [String.mk cur.reverse]
  | c :: rest, cur =>
    if c = ' ' then String.mk cur.reverse :: splitOnSpaceChar rest []
    else splitOnSpaceChar rest (c :: cur)

/-- The set of whitespace-separated tokens of a normalized string
(`normalize(s).split(' ').filter(Boolean)` deduplicated). -/
def tokenSet (s : String) : List String :=
  ((splitOnSpaceChar (normalizeString s).data []).filter
    (fun t => t ≠ "")).foldl insertUniqueToken []

/-- `tokenSimilarity(a, b)`: Jaccard index over normalized token sets. -/
def tokenSimilarity (a b : String) : ℚ :=
  let tokensA := tokenSet a
  let tokensB := tokenSet b
  if tokensA = [] && tokensB = [] then 1
  else if tokensA = [] || tokensB = [] then 0
  else
    let inter := tokensA.filter (fun t => t ∈ tokensB)
    let union := (tokensA ++ tokensB).foldl insertUniqueToken []
    (inter.length : ℚ) / (union.length : ℚ)

/-- `combinedSimilarity = 0.6·stringSimilarity + 0.4·tokenSimilarity`. -/
def combinedSimilarity (a b : String) : ℚ :=
  stringSimilarity a b * (6 / 10) + tokenSimilarity a b * (4 / 10)

/-- `extractOrgNumber`: the leading 4-digit code of a display name, if any
(regex `^(\d{4})`). -/
def extractOrgNumber (displayName : String) : Option String :=
  if 4 ≤ displayName.data.length && (displayName.data.take 4).all Char.isDigit then
    some (String.mk (displayName.data.take 4))
  else none

/-- `isSubCustomer`: display name begins `NNNN-NN` (regex `^\d{4}-\d{2}`). -/
def isSubCustomer (displayName : String) : Bool :=
  match displayName.data with
  | c1 :: c2 :: c3 :: c4 :: '-' :: c5 :: c6 :: _ =>
    c1.isDigit && c2.isDigit && c3.isDigit && c4.isDigit && c5.isDigit && c6.isDigit
  | _ => false

/-- `extractNameFromDisplayName`: strip a leading `\d{4}(-\d{2})?\s*` prefix,
then trim. -/
def extractNameFromDisplayName (displayName : String) : String :=
  let cs := displayName.data
  let rest :=
    if 4 ≤ cs.length && (cs.take 4).all Char.isDigit then
      let afterNum := cs.drop 4
      let afterSub :=
        match afterNum with
        | '-' :: d1 :: d2 :: tail =>
          if d1.isDigit && d2.isDigit then tail else afterNum
        | _ => afterNum
      afterSub.dropWhile isSpaceChar
    else cs
  String.mk (trimChars rest)

/-- `padOrgNumber`: decimal representation zero-padded to 4 characters;
a missing number gives the empty string. -/
def padOrgNumber (orgNum : Option Nat) : String :=
  match orgNum with
  | none => ""
  | some n =>
    let s := toString n
    if 4 ≤ s.length then s
    else String.mk (List.replicate (4 - s.length) '0') ++ s

/-! ## Data model (db/schema.ts, atek-invoices.ts)

Database tables are lists of rows; fresh surrogate keys come from a `nextId`
counter.  JavaScript string truthiness (`null`/`''` are falsy) is modelled by
`strFalsy`.  The serialized `blocking_issues` column is modelled as the
structured issue list itself. -/

/-- JS falsiness of a nullable string: `null`, `undefined` and `""`. -/
def strFalsy (s : Option String) : Bool :=
  match s with
  | none => true
  | some t => t = ""

/-- `a || b` on nullable strings. -/
def strOr (a : Option String) (b : String) : String :=
  match a with
  | some t => if t = "" then b else t
  | none => b

/-- One line item of a normalized ledger invoice. -/
structure LineItem where
  skuId : String
  skuCode : Option String
  skuName : Option String
  description : Option String
  quantity : ℚ
  unitPrice : ℚ
  amount : ℚ
  taxable : Bool
deriving Repr, DecidableEq

/-- A normalized ledger (ATEK) invoice, as produced by the connector. -/
structure NormalizedInvoice where
  id : String
  invoiceNumber : String
  organizationId : String
  contractualManagerId : Option String
  status : String
  issueDate : String
  dueDate : Option String
  lineItems : List LineItem
  subtotal : ℚ
  totalAmount : ℚ
  currency : String
  notes : Option String
  privateNotes : Option String
deriving Repr, DecidableEq

/-- A row of the `customer_mapping` table. -/
structure CustomerMappingRow where
  mappingId : Nat
  atekOrganizationId : String
  atekOrganizationName : String
  atekContractualManagerId : String
  atekContractualManagerName : Option String
  atekContractualManagerEmail : Option String
  quickbooksCustomerId : Option String
  quickbooksCustomerName : Option String
  quickbooksCustomerEmail : Option String
  mappingStatus : String
  confidenceScore : ℚ
  matchingMethod : String
  nameMatchScore : ℚ
  requiresManualReview : Bool
  createdDate : String
  lastModifiedDate : String
deriving Repr, DecidableEq

/-- A row of the `sku_mapping` table. -/
structure SkuMappingRow where
  mappingId : Nat
  atekSkuId : String
  atekSkuCode : String
  atekSkuName : String
  mappingStatus : String
  quickbooksItemId : Option String
  quickbooksItemName : Option String
deriving Repr, DecidableEq

/-- A typed blocking issue; `detailSkus` models the `details.skus` array of
the SKU-related issues (empty for the others). -/
structure BlockingIssue where
  type : String
  severity : String
  code : String
  message : String
  detailSkus : List String := []
deriving Repr, DecidableEq

/-- A row of the `invoice_validation` table. -/
structure InvoiceValidationRow where
  validationId : Nat
  atekInvoiceId : String
  atekInvoiceNumber : String
  validationStatus : String
  customerMappingValidated : Bool
  allSkusMapped : Bool
  blockingIssues : List BlockingIssue
  confidenceScore : ℚ
  readyForSync : Bool
  syncApprovedBy : Option String
  syncApprovedDate : Option String
  quickbooksInvoiceId : Option String
  syncDate : Option String
  createdDate : String
deriving Repr, DecidableEq

/-- A row of the `matching_algorithm_log` audit table (only the columns the
verified claims depend on). -/
structure LogRow where
  entityType : String
  atekEntityId : String
deriving Repr, DecidableEq

/-- The local relational store. -/
structure Db where
  customerMappings : List CustomerMappingRow
  skuMappings : List SkuMappingRow
  invoiceValidations : List InvoiceValidationRow
  logs : List LogRow
  nextId : Nat
deriving Repr, DecidableEq, Inhabited

/-! ## Invoice validation (invoice-validation.ts) -/

/-- Result of the customer-mapping check. -/
structure CustomerValidationResult where
  isValid : Bool
  organizationId : String
  contractualManagerId : Option String
  mappingId : Option Nat
  quickbooksCustomerId : Option String
  quickbooksCustomerName : Option String
  issues : List BlockingIssue
  matchedBy : Option String := none
deriving Repr, DecidableEq

/-- `checkCustomerMapping(organizationId, contractualManagerId)`: resolve a
mapping by (org, manager) with fallback to (org, empty manager) and demand
status `approved` plus a linked QuickBooks customer id. -/
def checkCustomerMapping (db : Db) (organizationId : String)
    (contractualManagerId : Option String) : CustomerValidationResult :=
  if organizationId = "" then
    { isValid := false, organizationId := "", contractualManagerId := none
      mappingId := none, quickbooksCustomerId := none, quickbooksCustomerName := none
      issues := [{ type := "customer_mapping", severity := "error"
                   code := "CUSTOMER_NO_ORG"
                   message := "Invoice has no organization ID" }] }
  else
    let managerId := strOr contractualManagerId ""
    let mapping := db.customerMappings.find? (fun r =>
      r.atekOrganizationId = organizationId && r.atekContractualManagerId = managerId)
    let effectiveMapping :=
      match mapping with
      | some m => some m
      | none =>
        if managerId ≠ "" then
          db.customerMappings.find? (fun r =>
            r.atekOrganizationId = organizationId && r.atekContractualManagerId = "")
        else none
    match effectiveMapping with
    | none =>
      { isValid := false, organizationId, contractualManagerId
        mappingId := none, quickbooksCustomerId := none, quickbooksCustomerName := none
        issues := [{ type := "customer_mapping", severity := "error"
                     code := "CUSTOMER_NO_MAPPING"
                     message := "No customer mapping found for this organization" }] }
    | some m =>
      if m.mappingStatus ≠ "approved" then
        { isValid := false, organizationId, contractualManagerId
          mappingId := some m.mappingId
          quickbooksCustomerId := m.quickbooksCustomerId
          quickbooksCustomerName := m.quickbooksCustomerName
          issues := [{ type := "customer_mapping", severity := "error"
                       code := "CUSTOMER_NOT_APPROVED"
                       message := "Customer mapping not approved (status: " ++
                         m.mappingStatus ++ ")" }] }
      else if strFalsy m.quickbooksCustomerId then
        { isValid := false, organizationId, contractualManagerId
          mappingId := some m.mappingId
          quickbooksCustomerId := none
          quickbooksCustomerName := m.quickbooksCustomerName
          issues := [{ type := "customer_mapping", severity := "error"
                       code := "CUSTOMER_NO_QB_LINK"
                       message := "Customer mapping approved but no QuickBooks customer linked" }] }
      else
        { isValid := true, organizationId, contractualManagerId
          mappingId := some m.mappingId
          quickbooksCustomerId := m.quickbooksCustomerId
          quickbooksCustomerName := m.quickbooksCustomerName
          issues := [] }

/-- The identity of one distinct SKU on an invoice. -/
structure SkuRef where
  skuId : String
  skuCode : Option String
  skuName : Option String
deriving Repr, DecidableEq

/-- One problematic SKU together with its reason. -/
structure SkuIssue where
  skuId : String
  skuCode : Option String
  skuName : Option String
  reason : String
deriving Repr, DecidableEq

/-- Result of the SKU-mapping check. -/
structure SkuValidationResult where
  isComplete : Bool
  totalSkus : Nat
  mappedSkus : Nat
  unmappedSkus : List SkuIssue
  issues : List BlockingIssue
deriving Repr, DecidableEq

/-- The map key of a line item: `item.skuCode || item.skuId`. -/
def skuKeyOf (item : LineItem) : String :=
  strOr item.skuCode item.skuId

/-- First-seen collection of the distinct SKU identifiers of an invoice. -/
def collectSkuIdentifiers (lineItems : List LineItem) : List (String × SkuRef) :=
  lineItems.foldl (fun acc item =>
    let key := skuKeyOf item
    if key ≠ "" && (acc.find? (fun p => p.1 = key)).isNone then
      acc ++ [(key, { skuId := item.skuId, skuCode := item.skuCode, skuName := item.skuName })]
    else acc) []

/-- Resolve the mapping of one SKU (by code key, then by id) and classify it;
`none` means a valid approved mapping with a linked item was found. -/
def classifySkuMapping (db : Db) (key : String) (sku : SkuRef) : Option SkuIssue :=
  let byCode := db.skuMappings.find? (fun r => r.atekSkuCode = key)
  let mapping :=
    match byCode with
    | some m => some m
    | none =>
      if sku.skuId ≠ "" then db.skuMappings.find? (fun r => r.atekSkuId = sku.skuId)
      else none
  match mapping with
  | none =>
    some { skuId := sku.skuId, skuCode := sku.skuCode, skuName := sku.skuName
           reason := "no_mapping" }
  | some m =>
    if m.mappingStatus = "needs_creation" then
      some { skuId := sku.skuId, skuCode := sku.skuCode, skuName := sku.skuName
             reason := "needs_creation" }
    else if m.mappingStatus ≠ "approved" then
      some { skuId := sku.skuId, skuCode := sku.skuCode, skuName := sku.skuName
             reason := "not_approved" }
    else if strFalsy m.quickbooksItemId then
      some { skuId := sku.skuId, skuCode := sku.skuCode, skuName := sku.skuName
             reason := "not_approved" }
    else none

/-- `checkSkuMappings(lineItems)`: classify every distinct SKU and aggregate
`SKU_NO_MAPPING` / `SKU_NOT_APPROVED` (errors) and `SKU_NEEDS_CREATION`
(warning) issues. -/
def checkSkuMappings (db : Db) (lineItems : List LineItem) : SkuValidationResult :=
  if lineItems = [] then
    { isComplete := true, totalSkus := 0, mappedSkus := 0, unmappedSkus := [], issues := [] }
  else
    let skuIdentifiers := collectSkuIdentifiers lineItems
    let totalSkus := skuIdentifiers.length
    let unmappedSkus := skuIdentifiers.filterMap (fun p => classifySkuMapping db p.1 p.2)
    let mappedSkus := totalSkus - unmappedSkus.length
    let noMappingSkus := unmappedSkus.filter (fun s => s.reason = "no_mapping")
    let notApprovedSkus := unmappedSkus.filter (fun s => s.reason = "not_approved")
    let needsCreationSkus := unmappedSkus.filter (fun s => s.reason = "needs_creation")
    let issues :=
      (if noMappingSkus.length > 0 then
        [{ type := "sku_mapping", severity := "error", code := "SKU_NO_MAPPING"
           message := toString noMappingSkus.length ++ " SKU(s) missing mappings"
           detailSkus := noMappingSkus.map (fun s => strOr s.skuCode s.skuId) : BlockingIssue }]
      else []) ++
      (if notApprovedSkus.length > 0 then
        [{ type := "sku_mapping", severity := "error", code := "SKU_NOT_APPROVED"
           message := toString notApprovedSkus.length ++ " SKU mapping(s) pending approval"
           detailSkus := notApprovedSkus.map (fun s => strOr s.skuCode s.skuId) : BlockingIssue }]
      else []) ++
      (if needsCreationSkus.length > 0 then
        [{ type := "sku_mapping", severity := "warning", code := "SKU_NEEDS_CREATION"
           message := toString needsCreationSkus.length ++ " SKU(s) need QB item creation"
           detailSkus := needsCreationSkus.map (fun s => strOr s.skuCode s.skuId) : BlockingIssue }]
      else [])
    let isComplete := (unmappedSkus.filter (fun s => s.reason ≠ "needs_creation")).length = 0
    { isComplete, totalSkus, mappedSkus, unmappedSkus, issues }

/-- `checkInvoiceStatus`: only `sent`/`paid`/`partial`/`overdue` may sync. -/
def checkInvoiceStatus (invoice : NormalizedInvoice) : List BlockingIssue :=
  let validStatuses := ["sent", "paid", "partial", "overdue"]
  if invoice.status ∈ validStatuses then []
  else if invoice.status = "draft" then
    [{ type := "invoice_status", severity := "error", code := "INVOICE_DRAFT"
       message := "Invoice is in draft status" }]
  else if invoice.status = "cancelled" || invoice.status = "void" then
    [{ type := "invoice_status", severity := "error", code := "INVOICE_CANCELLED"
       message := "Invoice is " ++ invoice.status }]
  else
    [{ type := "invoice_status", severity := "error", code := "INVOICE_INVALID_STATUS"
       message := "Invoice has invalid status: " ++ invoice.status }]

/-- `checkDataQuality`: missing line items (error), missing invoice number
(warning), non-positive total (warning). -/
def checkDataQuality (invoice : NormalizedInvoice) : List BlockingIssue :=
  (if invoice.lineItems = [] then
    [{ type := "data_quality", severity := "error", code := "MISSING_LINE_ITEMS"
       message := "Invoice has no line items" : BlockingIssue }]
  else []) ++
  (if invoice.invoiceNumber = "" then
    [{ type := "data_quality", severity := "warning", code := "MISSING_INVOICE_NUMBER"
       message := "Invoice has no invoice number" : BlockingIssue }]
  else []) ++
  (if invoice.totalAmount ≤ 0 then
    [{ type := "data_quality", severity := "warning", code := "ZERO_TOTAL"
       message := "Invoice has zero or negative total" : BlockingIssue }]
  else [])

/-- `calculateConfidenceScore`: `0.4·customer + 0.6·(mapped/total, or 1 when
there are no SKUs)`. -/
def calculateConfidenceScore (customerResult : CustomerValidationResult)
    (skuResult : SkuValidationResult) : ℚ :=
  let customerScore : ℚ := if customerResult.isValid then 1 else 0
  let skuScore : ℚ :=
    if skuResult.totalSkus > 0 then (skuResult.mappedSkus : ℚ) / (skuResult.totalSkus : ℚ)
    else 1
  customerScore * (4 / 10) + skuScore * (6 / 10)

/-- The `skuSummary` block of a validation result. -/
structure SkuSummary where
  total : Nat
  mapped : Nat
  pending : Nat
deriving Repr, DecidableEq, Inhabited

/-- The result returned by `validateInvoice`. -/
structure ValidationResult where
  invoiceId : String
  invoiceNumber : String
  status : String
  customerMappingValidated : Bool
  allSkusMapped : Bool
  blockingIssues : List BlockingIssue
  confidenceScore : ℚ
  readyForSync : Bool
  customerDetails : Option (String × String)
  skuSummary : SkuSummary
deriving Repr, DecidableEq, Inhabited

/-- `storeValidationResult`: upsert of the validation row keyed by the ledger
invoice id; an existing row whose status is already `synced` is left entirely
untouched (the write is skipped). -/
def storeValidationResult (db : Db) (invoice : NormalizedInvoice)
    (result : ValidationResult) (now : String) : Db :=
  let existingValidation := db.invoiceValidations.find? (fun r => r.atekInvoiceId = invoice.id)
  match existingValidation with
  | some ex =>
    if ex.validationStatus = "synced" then db
    else
      { db with invoiceValidations := db.invoiceValidations.map (fun r =>
          if r.validationId = ex.validationId then
            { r with
              atekInvoiceId := invoice.id
              atekInvoiceNumber := invoice.invoiceNumber
              validationStatus := result.status
              customerMappingValidated := result.customerMappingValidated
              allSkusMapped := result.allSkusMapped
              blockingIssues := result.blockingIssues
              confidenceScore := result.confidenceScore
              readyForSync := result.readyForSync }
          else r) }
  | none =>
    { db with
      invoiceValidations := db.invoiceValidations ++ [{
        validationId := db.nextId
        atekInvoiceId := invoice.id
        atekInvoiceNumber := invoice.invoiceNumber
        validationStatus := result.status
        customerMappingValidated := result.customerMappingValidated
        allSkusMapped := result.allSkusMapped
        blockingIssues := result.blockingIssues
        confidenceScore := result.confidenceScore
        readyForSync := result.readyForSync
        syncApprovedBy := none
        syncApprovedDate := none
        quickbooksInvoiceId := none
        syncDate := none
        createdDate := now }]
      nextId := db.nextId + 1 }

/-- `logValidationAttempt`: append one audit-log row per validation call. -/
def logValidationAttempt (db : Db) (invoice : NormalizedInvoice) : Db :=
  { db with logs := db.logs ++ [{ entityType := "invoice", atekEntityId := invoice.id }] }

/-- The environment of the validator: the ledger connector plus a clock. -/
structure ValidationEnv where
  getInvoice : String → Option NormalizedInvoice
  now : String

/-- `validateInvoice(id)`: fetch the invoice, run the four checks, aggregate
issues, compute the confidence score and the `blocked`/`ready` verdict, then
persist the result and append an audit row.  A missing invoice throws. -/
def validateInvoice (env : ValidationEnv) (db : Db) (atekInvoiceId : String) :
    Except String (ValidationResult × Db) :=
  match env.getInvoice atekInvoiceId with
  | none => .error ("Invoice not found: " ++ atekInvoiceId)
  | some invoice =>
    let customerResult := checkCustomerMapping db invoice.organizationId
      invoice.contractualManagerId
    let skuResult := checkSkuMappings db invoice.lineItems
    let statusIssues := checkInvoiceStatus invoice
    let dataIssues := checkDataQuality invoice
    let blockingIssues :=
      customerResult.issues ++ skuResult.issues ++ statusIssues ++ dataIssues
    let confidenceScore := calculateConfidenceScore customerResult skuResult
    let hasErrors := blockingIssues.any (fun issue => issue.severity = "error")
    let status := if hasErrors then "blocked" else "ready"
    let readyForSync := !hasErrors
    let result : ValidationResult :=
      { invoiceId := invoice.id
        invoiceNumber := invoice.invoiceNumber
        status
        customerMappingValidated := customerResult.isValid
        allSkusMapped := skuResult.isComplete
        blockingIssues
        confidenceScore
        readyForSync
        customerDetails :=
          if customerResult.isValid && !strFalsy customerResult.quickbooksCustomerId then
            some (strOr customerResult.quickbooksCustomerId "",
                  strOr customerResult.quickbooksCustomerName "")
          else none
        skuSummary :=
          { total := skuResult.totalSkus
            mapped := skuResult.mappedSkus
            pending := skuResult.totalSkus - skuResult.mappedSkus } }
    let db1 := storeValidationResult db invoice result env.now
    let db2 := logValidationAttempt db1 invoice
    .ok (result, db2)

/-- The result returned by `validateBatch`. -/
structure BatchValidationResult where
  total : Nat
  ready : Nat
  blocked : Nat
  pending : Nat
  results : List ValidationResult
deriving Repr, DecidableEq

/-- One iteration of the `validateBatch` loop: a throwing validation is
logged and skipped (no result record pushed), the loop continues. -/
def validateBatchStep (env : ValidationEnv) (acc : List ValidationResult × Db)
    (invoiceId : String) : List ValidationResult × Db :=
  match validateInvoice env acc.2 invoiceId with
  | .ok (r, db2) => (acc.1 ++ [r], db2)
  | .error _ => acc

/-- `validateBatch(ids)`: validate each id in order; a throwing validation is
logged and skipped (no result record), the loop continues. -/
def validateBatch (env : ValidationEnv) (db : Db) (invoiceIds : List String) :
    BatchValidationResult × Db :=
  let step := invoiceIds.foldl (validateBatchStep env) ([], db)
  let results := step.1
  ({ total := results.length
     ready := (results.filter (fun r => r.status = "ready")).length
     blocked := (results.filter (fun r => r.status = "blocked")).length
     pending := (results.filter (fun r => r.status = "pending")).length
     results }, step.2)

/-- `getValidationStatus(id)`: the persisted validation row, if any. -/
def getValidationStatus (db : Db) (atekInvoiceId : String) : Option InvoiceValidationRow :=
  db.invoiceValidations.find? (fun r => r.atekInvoiceId = atekInvoiceId)

/-- `markAsSynced(id, qbInvoiceId)`: flip the validation row to `synced` and
record the remote invoice id and the sync timestamp. -/
def markAsSynced (db : Db) (atekInvoiceId : String) (quickbooksInvoiceId : String)
    (now : String) : Db :=
  { db with invoiceValidations := db.invoiceValidations.map (fun r =>
      if r.atekInvoiceId = atekInvoiceId then
        { r with
          validationStatus := "synced"
          quickbooksInvoiceId := some quickbooksInvoiceId
          syncDate := some now }
      else r) }

/-! ## Invoice sync engine (invoice-sync.ts)

The remote accounting API is modelled by an environment: a duplicate lookup
by document number (`null` on lookup failure, as in the source), a create
outcome (upstream error message or the id QuickBooks assigns), and an update
error switch.  Remote calls and `markAsSynced` are recorded in an effect
trace.  The payload's `BillAddr`/`ShipAddr` (best-effort address parsing) are
omitted from the model: they affect no control flow and no verified claim
mentions them. -/

/-- A remote QuickBooks invoice (the fields the sync engine reads). -/
structure QBInvoice where
  Id : String
  DocNumber : Option String
  SyncToken : Option String
deriving Repr, DecidableEq

/-- One `SalesItemLineDetail` line of an invoice payload. -/
structure QBLine where
  Amount : ℚ
  Description : String
  ItemRef : String
  Qty : ℚ
  UnitPrice : ℚ
  TaxCodeRef : String
deriving Repr, DecidableEq

/-- The invoice payload sent on create and update. -/
structure QBInvoicePayload where
  CustomerRef : String
  Line : List QBLine
  DocNumber : String
  TxnDate : String
  DueDate : Option String
  CustomerMemo : Option String
  PrivateNote : Option String
  TxnTaxDetail : TxnTaxDetail
deriving Repr, DecidableEq, Inhabited

/-- `getSkuMappingForItem(item)`: resolve the SKU mapping by code first,
then by id. -/
def getSkuMappingForItem (db : Db) (item : LineItem) : Option SkuMappingRow :=
  let byCode :=
    match item.skuCode with
    | some c => if c ≠ "" then db.skuMappings.find? (fun r => r.atekSkuCode = c) else none
    | none => none
  match byCode with
  | some m => some m
  | none =>
    if item.skuId ≠ "" then db.skuMappings.find? (fun r => r.atekSkuId = item.skuId)
    else none

/-- The result of `buildQBInvoice` (`invoice = none` exactly when
`success = false`). -/
structure BuildQBInvoiceResult where
  success : Bool
  invoice : Option QBInvoicePayload
  error : Option String
  missingMappings : List String
deriving Repr, DecidableEq

/-- `buildQBInvoice`: resolve every line's approved SKU mapping, force unit
price to 0 on zero-amount lines, attach the fixed taxable code and the
jurisdictional tax detail computed from the line-amount subtotal; fail when
any mapping is missing or unapproved, or when no line could be mapped. -/
def buildQBInvoice (db : Db) (invoice : NormalizedInvoice)
    (customerResult : CustomerValidationResult) : BuildQBInvoiceResult :=
  let step := invoice.lineItems.foldl (fun (acc : List QBLine × List String) item =>
    match getSkuMappingForItem db item with
    | none => (acc.1, acc.2 ++ [strOr item.skuCode (strOr (some item.skuId) "Unknown SKU")])
    | some mapping =>
      if strFalsy mapping.quickbooksItemId then
        (acc.1, acc.2 ++ [strOr item.skuCode (strOr (some item.skuId) "Unknown SKU")])
      else if mapping.mappingStatus ≠ "approved" then
        (acc.1, acc.2 ++ [strOr item.skuCode item.skuId ++ " (not approved)"])
      else
        let unitPrice := if item.amount = 0 then 0 else item.unitPrice
        (acc.1 ++ [{ Amount := item.amount
                     Description := strOr item.description (strOr item.skuName "")
                     ItemRef := strOr mapping.quickbooksItemId ""
                     Qty := item.quantity
                     UnitPrice := unitPrice
                     TaxCodeRef := QB_TAX_CODE_TAXABLE }], acc.2)) ([], [])
  let lineItems := step.1
  let missingMappings := step.2
  if missingMappings ≠ [] then
    { success := false, invoice := none
      error := some ("Missing SKU mappings: " ++ String.intercalate ", " missingMappings)
      missingMappings }
  else if lineItems = [] then
    { success := false, invoice := none
      error := some "No line items could be mapped", missingMappings := [] }
  else
    let subtotal := lineItems.foldl (fun sum l => sum + l.Amount) 0
    { success := true
      invoice := some
        { CustomerRef := strOr customerResult.quickbooksCustomerId ""
          Line := lineItems
          DocNumber := invoice.invoiceNumber
          TxnDate := invoice.issueDate
          DueDate := if strFalsy invoice.dueDate then none else invoice.dueDate
          CustomerMemo := if strFalsy invoice.notes then none else invoice.notes
          PrivateNote := if strFalsy invoice.privateNotes then none else invoice.privateNotes
          TxnTaxDetail := buildQCTaxDetail subtotal }
      error := none, missingMappings := [] }

/-- The environment of the sync engine: ledger connector, remote duplicate
lookup (`none` also covers lookup failure, as in `checkDuplicateInQB`),
remote write outcomes, and a clock. -/
structure SyncEnv where
  getInvoice : String → Option NormalizedInvoice
  qbInvoiceByDocNumber : String → Option QBInvoice
  createOutcome : Except String String
  updateError : Option String
  now : String

/-- Remote calls performed by a sync run, in order. -/
inductive SyncEffect where
  | qbUpdate (invoiceId : String) (syncToken : String)
  | qbCreate
  | markedSynced (atekInvoiceId : String) (quickbooksInvoiceId : String)
deriving Repr, DecidableEq

/-- `updateInvoice(id, syncToken, updates)`: the remote update echoes the
invoice with the same remote id. -/
def updateQBInvoice (env : SyncEnv) (invoiceId syncToken : String)
    (updates : QBInvoicePayload) : Except String QBInvoice :=
  match env.updateError with
  | some m => .error m
  | none =>
    .ok { Id := invoiceId, DocNumber := some updates.DocNumber, SyncToken := some syncToken }

/-- `createInvoice(input)`: the remote create assigns a fresh id. -/
def createQBInvoice (env : SyncEnv) (input : QBInvoicePayload) : Except String QBInvoice :=
  match env.createOutcome with
  | .error m => .error m
  | .ok newId => .ok { Id := newId, DocNumber := some input.DocNumber, SyncToken := some "0" }

/-- The result of one `syncInvoice` call. -/
structure InvoiceSyncResult where
  atekInvoiceId : String
  atekInvoiceNumber : String
  success : Bool
  quickbooksInvoiceId : Option String := none
  quickbooksDocNumber : Option String := none
  error : Option String := none
  skippedReason : Option String := none
  lineItemsCreated : Nat := 0
deriving Repr, DecidableEq, Inhabited

/-- Steps 3–4 of `syncInvoice`: resolve the target customer, either from the
explicit override (method `manual_override`) or from the approved customer
mapping, pre-checking it when the invoice was never validated or is still
`pending`.  An unresolvable customer short-circuits with a failure result. -/
def resolveCustomer (db : Db) (validation : Option InvoiceValidationRow)
    (invoice : NormalizedInvoice) (atekInvoiceId : String)
    (overrideQbCustomerId : Option String) :
    Except InvoiceSyncResult CustomerValidationResult :=
  match overrideQbCustomerId with
  | some cid =>
    .ok { isValid := true, organizationId := "", contractualManagerId := none
          mappingId := none, quickbooksCustomerId := some cid
          quickbooksCustomerName := none, issues := [], matchedBy := some "manual_override" }
  | none =>
    let needsPrecheck :=
      match validation with
      | none => true
      | some v => v.validationStatus = "pending"
    if needsPrecheck &&
        !(checkCustomerMapping db invoice.organizationId invoice.contractualManagerId).isValid then
      .error { atekInvoiceId, atekInvoiceNumber := invoice.invoiceNumber
               success := false, skippedReason := some "no_customer_mapping"
               error := some "Customer mapping not approved", lineItemsCreated := 0 }
    else
      let customerResult :=
        checkCustomerMapping db invoice.organizationId invoice.contractualManagerId
      if !customerResult.isValid || strFalsy customerResult.quickbooksCustomerId then
        .error { atekInvoiceId, atekInvoiceNumber := invoice.invoiceNumber
                 success := false, skippedReason := some "no_customer_mapping"
                 error := some (strOr (customerResult.issues.head?.map
                   (fun i => i.message)) "No customer mapping")
                 lineItemsCreated := 0 }
      else .ok customerResult

/-- `syncInvoice(id, options?)`: resolve the customer, look the document
number up remotely, build the payload, then update the pre-existing remote
invoice in place (reusing its id and concurrency token) or create a new one,
and mark the local row synced only after a successful remote write. -/
def syncInvoice (env : SyncEnv) (db : Db) (atekInvoiceId : String)
    (overrideQbCustomerId : Option String) :
    InvoiceSyncResult × Db × List SyncEffect :=
  let validation := getValidationStatus db atekInvoiceId
  match env.getInvoice atekInvoiceId with
  | none =>
    ({ atekInvoiceId, atekInvoiceNumber := "", success := false
       error := some "Invoice not found in ATEK", lineItemsCreated := 0 }, db, [])
  | some invoice =>
    match resolveCustomer db validation invoice atekInvoiceId overrideQbCustomerId with
    | .error res => (res, db, [])
    | .ok customerResult =>
      let createPath : Unit → InvoiceSyncResult × Db × List SyncEffect := fun _ =>
        let buildResult := buildQBInvoice db invoice customerResult
        match buildResult.invoice with
        | none =>
          ({ atekInvoiceId, atekInvoiceNumber := invoice.invoiceNumber, success := false
             skippedReason := some "missing_sku_mappings", error := buildResult.error
             lineItemsCreated := 0 }, db, [])
        | some payload =>
          match createQBInvoice env payload with
          | .ok qbInvoice =>
            ({ atekInvoiceId, atekInvoiceNumber := invoice.invoiceNumber, success := true
               quickbooksInvoiceId := some qbInvoice.Id
               quickbooksDocNumber := qbInvoice.DocNumber
               lineItemsCreated := payload.Line.length },
             markAsSynced db atekInvoiceId qbInvoice.Id env.now,
             [.qbCreate, .markedSynced atekInvoiceId qbInvoice.Id])
          | .error errorMessage =>
            ({ atekInvoiceId, atekInvoiceNumber := invoice.invoiceNumber, success := false
               error := some ("QB Error: " ++ errorMessage), lineItemsCreated := 0 },
             db, [.qbCreate])
      if invoice.invoiceNumber ≠ "" then
        match env.qbInvoiceByDocNumber invoice.invoiceNumber with
        | some existingInQB =>
          let buildResult := buildQBInvoice db invoice customerResult
          match buildResult.invoice with
          | none =>
            ({ atekInvoiceId, atekInvoiceNumber := invoice.invoiceNumber, success := false
               skippedReason := some "missing_sku_mappings", error := buildResult.error
               lineItemsCreated := 0 }, db, [])
          | some payload =>
            let syncToken := strOr existingInQB.SyncToken "0"
            match updateQBInvoice env existingInQB.Id syncToken payload with
            | .ok updatedInvoice =>
              ({ atekInvoiceId, atekInvoiceNumber := invoice.invoiceNumber, success := true
                 quickbooksInvoiceId := some updatedInvoice.Id
                 quickbooksDocNumber := updatedInvoice.DocNumber
                 lineItemsCreated := payload.Line.length },
               markAsSynced db atekInvoiceId updatedInvoice.Id env.now,
               [.qbUpdate existingInQB.Id syncToken,
                .markedSynced atekInvoiceId updatedInvoice.Id])
            | .error errorMessage =>
              ({ atekInvoiceId, atekInvoiceNumber := invoice.invoiceNumber, success := false
                 error := some ("QB Update Error: " ++ errorMessage), lineItemsCreated := 0 },
               db, [.qbUpdate existingInQB.Id syncToken])
        | none => createPath ()
      else createPath ()

/-- The result of `syncBatch`. -/
structure BatchSyncResult where
  total : Nat
  successful : Nat
  failed : Nat
  skipped : Nat
  results : List InvoiceSyncResult
deriving Repr, DecidableEq

/-- Accumulator of the sequential batch-sync loop. -/
structure SyncBatchAcc where
  results : List InvoiceSyncResult
  successful : Nat
  failed : Nat
  skipped : Nat
  db : Db
deriving Repr, DecidableEq

/-- One iteration of the `syncBatch` loop.  (The source's per-item
`try/catch` is vacuous here: the embedded `syncInvoice` is total, matching
the source where every remote failure is already caught inside
`syncInvoice`.) -/
def syncBatchStep (env : SyncEnv) (acc : SyncBatchAcc) (invoiceId : String) :
    SyncBatchAcc :=
  let step := syncInvoice env acc.db invoiceId none
  let result := step.1
  if result.success then
    { acc with results := acc.results ++ [result]
               successful := acc.successful + 1, db := step.2.1 }
  else if result.skippedReason.isSome then
    { acc with results := acc.results ++ [result]
               skipped := acc.skipped + 1, db := step.2.1 }
  else
    { acc with results := acc.results ++ [result]
               failed := acc.failed + 1, db := step.2.1 }

/-- `syncBatch(ids)`: sequential loop pushing one result record per id and
tallying successful/failed/skipped counts. -/
def syncBatch (env : SyncEnv) (db : Db) (invoiceIds : List String) :
    BatchSyncResult × Db :=
  let acc := invoiceIds.foldl (syncBatchStep env)
    { results := [], successful := 0, failed := 0, skipped := 0, db }
  ({ total := invoiceIds.length, successful := acc.successful, failed := acc.failed
     skipped := acc.skipped, results := acc.results }, acc.db)

/-! ## Customer matching (customer-matching service)

`runCustomerMatching` matches ledger organizations to remote customers with
an org-number-first, fuzzy-name-fallback strategy and persists one mapping
row per (organization, manager) pair through `storeMapping`. -/

/-- A remote customer (the fields the matcher reads). -/
structure QBCustomer where
  Id : String
  DisplayName : String
  PrimaryEmailAddr : Option String := none
deriving Repr, DecidableEq

/-- A normalized ledger organization. -/
structure NormalizedOrganization where
  id : String
  name : String
  orgNumber : Option Nat
deriving Repr, DecidableEq

/-- The per-factor sub-scores of one candidate. -/
structure ConfidenceFactors where
  orgNumMatch : Bool
  orgNumScore : ℚ
  nameScore : ℚ
  isSubCustomer : Bool
deriving Repr, DecidableEq

/-- One scored match candidate. -/
structure MatchCandidate where
  customer : QBCustomer
  score : ℚ
  factors : ConfidenceFactors
deriving Repr, DecidableEq

/-- Strategy 1 of `matchOrganization`: customers whose extracted 4-digit code
equals the organization's zero-padded code, sub-entities excluded; base score
0.90, +0.10 when name similarity exceeds 0.80, else +0.05 when it exceeds
0.50, capped at 1.  (The `qbByOrgNum` index groups customers by extracted
code preserving order, so the group of `orgNum` is exactly this filter.) -/
def codeCandidates (org : NormalizedOrganization) (qbCustomers : List QBCustomer) :
    List MatchCandidate :=
  let orgNum := padOrgNumber org.orgNumber
  if orgNum ≠ "" then
    ((qbCustomers.filter (fun c => extractOrgNumber c.DisplayName = some orgNum)).filter
        (fun c => !isSubCustomer c.DisplayName)).map (fun c =>
      let qbName := extractNameFromDisplayName c.DisplayName
      let nameScore := combinedSimilarity org.name qbName
      let score : ℚ := 9 / 10 +
        (if nameScore > 8 / 10 then (1 : ℚ) / 10
         else if nameScore > 5 / 10 then 5 / 100 else 0)
      { customer := c, score := min score 1
        factors := { orgNumMatch := true, orgNumScore := 1, nameScore
                     isSubCustomer := false } })
  else []

/-- Strategy 2 of `matchOrganization` (fallback): fuzzy name comparison over
all non-sub-entity customers, keeping similarities above 0.60 and scoring
them `0.70·similarity` above 0.85 similarity, else `0.50·similarity`. -/
def fuzzyCandidates (org : NormalizedOrganization) (qbCustomers : List QBCustomer) :
    List MatchCandidate :=
  qbCustomers.filterMap (fun c =>
    if isSubCustomer c.DisplayName then none
    else
      let qbName := extractNameFromDisplayName c.DisplayName
      let nameScore := combinedSimilarity org.name qbName
      if nameScore > 6 / 10 then
        let score : ℚ := if nameScore > 85 / 100 then 7 / 10 else 5 / 10
        some { customer := c, score := score * nameScore
               factors := { orgNumMatch := false, orgNumScore := 0, nameScore
                            isSubCustomer := false } }
      else none)

/-- Stable insertion of a candidate into a score-descending list (a new
candidate goes after existing ones with an equal or higher score), matching
the stable `sort((a, b) => b.score - a.score)`. -/
def insertCandidateDesc (x : MatchCandidate) : List MatchCandidate → List MatchCandidate
  | [] => [x]
  | y :: ys => if y.score ≥ x.score then y :: insertCandidateDesc x ys else x :: y :: ys

/-- Stable sort of the candidate list by score descending. -/
def sortCandidatesDesc (l : List MatchCandidate) : List MatchCandidate :=
  l.foldl (fun acc x => insertCandidateDesc x acc) []

/-- The candidate list of `matchOrganization`: code candidates, with the
fuzzy fallback used only when no code candidate exists. -/
def matchCandidates (org : NormalizedOrganization) (qbCustomers : List QBCustomer) :
    List MatchCandidate :=
  let codeCands := codeCandidates org qbCustomers
  if codeCands = [] then fuzzyCandidates org qbCustomers else codeCands

/-- The result of matching one organization. -/
structure CustomerMatchResult where
  atekOrganization : NormalizedOrganization
  qbCustomer : Option QBCustomer
  confidenceScore : ℚ
  matchingMethod : String
  confidenceFactors : ConfidenceFactors
  allCandidates : List (String × String × ℚ)
deriving Repr, DecidableEq

/-- `matchOrganization(org, allQbCustomers, qbByOrgNum)`: rank the candidates
by score descending and select the best; keep the top 5 for the audit log. -/
def matchOrganization (org : NormalizedOrganization) (qbCustomers : List QBCustomer) :
    CustomerMatchResult :=
  let candidates := sortCandidatesDesc (matchCandidates org qbCustomers)
  match candidates with
  | [] =>
    { atekOrganization := org, qbCustomer := none, confidenceScore := 0
      matchingMethod := "no_match"
      confidenceFactors := { orgNumMatch := false, orgNumScore := 0, nameScore := 0
                             isSubCustomer := false }
      allCandidates := [] }
  | bestMatch :: _ =>
    { atekOrganization := org, qbCustomer := some bestMatch.customer
      confidenceScore := bestMatch.score
      matchingMethod := if bestMatch.factors.orgNumMatch then "org_num_exact" else "name_fuzzy"
      confidenceFactors := bestMatch.factors
      allCandidates := (candidates.take 5).map (fun c =>
        (c.customer.Id, c.customer.DisplayName, c.score)) }

/-- `determineMappingStatus`: no customer ⇒ `needs_review`; confidence ≥ 0.95
or ≥ 0.70 ⇒ `proposed`; below ⇒ `needs_review`. -/
def determineMappingStatus (result : CustomerMatchResult) : String :=
  match result.qbCustomer with
  | none => "needs_review"
  | some _ =>
    if result.confidenceScore ≥ 95 / 100 then "proposed"
    else if result.confidenceScore ≥ 7 / 10 then "proposed"
    else "needs_review"

/-- A ledger manager (contractual manager of an organization). -/
structure Manager where
  id : String
  name : String
  email : String
deriving Repr, DecidableEq

/-- `null` out an empty-string optional (JS `x || null`). -/
def strOrNone (s : Option String) : Option String :=
  if strFalsy s then none else s

/-- The `mappingData` written by `storeMapping`, applied over an existing row
(whose surrogate key and creation date it keeps).  The source stores
`email_exact` as the method name for `org_num_exact` results. -/
def storeMappingData (org : NormalizedOrganization) (result : CustomerMatchResult)
    (manager : Option Manager) (now : String) (r : CustomerMappingRow) :
    CustomerMappingRow :=
  { r with
    atekOrganizationId := org.id
    atekOrganizationName := org.name
    atekContractualManagerId := strOr (manager.map (fun m => m.id)) ""
    atekContractualManagerName := strOrNone (manager.map (fun m => m.name))
    atekContractualManagerEmail := strOrNone (manager.map (fun m => m.email))
    quickbooksCustomerId := strOrNone (result.qbCustomer.map (fun c => c.Id))
    quickbooksCustomerName := strOrNone (result.qbCustomer.map (fun c => c.DisplayName))
    quickbooksCustomerEmail := strOrNone (result.qbCustomer.bind (fun c => c.PrimaryEmailAddr))
    mappingStatus := determineMappingStatus result
    confidenceScore := result.confidenceScore
    matchingMethod := if result.matchingMethod = "org_num_exact" then "email_exact"
      else "name_fuzzy"
    nameMatchScore := result.confidenceFactors.nameScore
    requiresManualReview := result.confidenceScore < 7 / 10
    lastModifiedDate := now }

/-- `storeMapping(org, result, manager)`: upsert of the mapping row keyed by
(organization id, manager id); an existing row is refreshed only when its
status is `proposed` or `needs_review`. -/
def storeMapping (db : Db) (org : NormalizedOrganization) (result : CustomerMatchResult)
    (manager : Option Manager) (now : String) : Db :=
  let managerId := strOr (manager.map (fun m => m.id)) ""
  let existing := db.customerMappings.find? (fun r =>
    r.atekOrganizationId = org.id && r.atekContractualManagerId = managerId)
  match existing with
  | some ex =>
    if ex.mappingStatus = "proposed" || ex.mappingStatus = "needs_review" then
      { db with customerMappings := db.customerMappings.map (fun r =>
          if r.mappingId = ex.mappingId then storeMappingData org result manager now r
          else r) }
    else db
  | none =>
    { db with
      customerMappings := db.customerMappings ++
        [storeMappingData org result manager now
          { mappingId := db.nextId
            atekOrganizationId := org.id, atekOrganizationName := org.name
            atekContractualManagerId := "", atekContractualManagerName := none
            atekContractualManagerEmail := none, quickbooksCustomerId := none
            quickbooksCustomerName := none, quickbooksCustomerEmail := none
            mappingStatus := "proposed", confidenceScore := 0, matchingMethod := ""
            nameMatchScore := 0, requiresManualReview := false
            createdDate := now, lastModifiedDate := now }]
      nextId := db.nextId + 1 }

/-- `clearAllMappings()`: delete the `proposed` rows, then the `needs_review`
rows, then the customer audit log — approved/rejected rows survive. -/
def clearAllMappings (db : Db) : Db :=
  let db1 := { db with customerMappings :=
    db.customerMappings.filter (fun r => !(r.mappingStatus = "proposed")) }
  let db2 := { db1 with customerMappings :=
    db1.customerMappings.filter (fun r => !(r.mappingStatus = "needs_review")) }
  { db2 with logs := db2.logs.filter (fun l => !(l.entityType = "customer")) }

/-! ## SKU matching (sku-matching.ts)

`matchInvoiceSKUsWithQBItems` classifies every distinct ledger SKU against
the active remote item catalog.  The remote side is an environment: a
connection flag and an item-fetch outcome. -/

/-- `startsWith` over character lists. -/
def startsWithChars : List Char → List Char → Bool
  | _, [] => true
  | [], _ :: _ => false
  | h :: t, nh :: nt => h = nh && startsWithChars t nt

/-- Substring test over character lists (JS `String.prototype.includes`). -/
def containsChars : List Char → List Char → Bool
  | [], needle => needle.isEmpty
  | h :: t, needle => startsWithChars (h :: t) needle || containsChars t needle

/-- JS `hay.includes(needle)`. -/
def stringIncludes (hay needle : String) : Bool :=
  containsChars hay.data needle.data

/-- A remote item (the fields the SKU matcher reads). -/
structure QBItem where
  Id : String
  Name : String
  Active : Option Bool
  Sku : Option String
deriving Repr, DecidableEq

/-- One distinct ledger SKU aggregated from the invoices. -/
structure InvoiceSKU where
  skuId : String
  code : Option String
  name : Option String
deriving Repr, DecidableEq

/-- The classification of one SKU. -/
structure SKUMatchResult where
  atekSku : InvoiceSKU
  qbItem : Option QBItem
  matchType : String
  confidence : ℚ
deriving Repr, DecidableEq

/-- Item eligibility (checked identically at both use sites in the source):
`Active !== true` is skipped, as is a name carrying a soft-delete marker. -/
def itemEligible (item : QBItem) : Bool :=
  item.Active = some true &&
  !stringIncludes item.Name "(supprimé)" && !stringIncludes item.Name "(deleted)"

/-- The index key of an item in the code map (`if (item.Sku)` then its
normalized SKU code). -/
def codeKeyOf (item : QBItem) : Option String :=
  match item.Sku with
  | some sku => if sku ≠ "" then some (normalizeString sku) else none
  | none => none

/-- Overwriting insertion into an association list (JS `Map.prototype.set`). -/
def assocPut (m : List (String × QBItem)) (k : String) (v : QBItem) :
    List (String × QBItem) :=
  if (m.find? (fun p => p.1 = k)).isSome then
    m.map (fun p => if p.1 = k then (k, v) else p)
  else m ++ [(k, v)]

/-- Lookup in an association list (JS `Map.prototype.get`). -/
def assocGet (m : List (String × QBItem)) (k : String) : Option QBItem :=
  (m.find? (fun p => p.1 = k)).map (fun p => p.2)

/-- One item's contribution to the code- and name-indexed lookup maps. -/
def buildSkuMapsStep (maps : List (String × QBItem) × List (String × QBItem))
    (item : QBItem) : List (String × QBItem) × List (String × QBItem) :=
  if !itemEligible item then maps
  else
    let byCode :=
      match codeKeyOf item with
      | some k => assocPut maps.1 k item
      | none => maps.1
    let byName := assocPut maps.2 (normalizeString item.Name) item
    (byCode, byName)

/-- Build the code- and name-indexed lookup maps over the fetched items. -/
def buildSkuMaps (qbItems : List QBItem) :
    List (String × QBItem) × List (String × QBItem) :=
  qbItems.foldl buildSkuMapsStep ([], [])

/-- Strategy 1 lookup: exact match on the normalized SKU code. -/
def codeLookup (qbByCode : List (String × QBItem)) (atekSku : InvoiceSKU) :
    Option QBItem :=
  match atekSku.code with
  | some c => if c ≠ "" then assocGet qbByCode (normalizeString c) else none
  | none => none

/-- Strategy 2 lookup: exact match on the normalized name. -/
def nameLookup (qbByName : List (String × QBItem)) (atekSku : InvoiceSKU) :
    Option QBItem :=
  match atekSku.name with
  | some n => if n ≠ "" then assocGet qbByName (normalizeString n) else none
  | none => none

/-- One iteration of the fuzzy-name loop: keep the strictly best similarity
at or above 0.8 among eligible items. -/
def fuzzyBestStep (n : String) (best : Option QBItem × ℚ) (item : QBItem) :
    Option QBItem × ℚ :=
  if !itemEligible item then best
  else
    let similarity := stringSimilarity n item.Name
    if similarity > best.2 && similarity ≥ 8 / 10 then (some item, similarity) else best

/-- Strategy 3: the best fuzzy-name candidate over all fetched items. -/
def fuzzyBest (qbItems : List QBItem) (n : String) : Option QBItem × ℚ :=
  qbItems.foldl (fuzzyBestStep n) (none, 0)

/-- Classification of one SKU: exact code (1.0), else exact name (0.95),
else best fuzzy name at ≥ 0.8 similarity (similarity × 0.9), else no match. -/
def classifySKU (qbItems : List QBItem)
    (qbByCode qbByName : List (String × QBItem)) (atekSku : InvoiceSKU) :
    SKUMatchResult :=
  match codeLookup qbByCode atekSku with
  | some item =>
    { atekSku, qbItem := some item, matchType := "exact_code", confidence := 1 }
  | none =>
    match nameLookup qbByName atekSku with
    | some item =>
      { atekSku, qbItem := some item, matchType := "exact_name", confidence := 95 / 100 }
    | none =>
      match atekSku.name with
      | some n =>
        if n ≠ "" then
          let best := fuzzyBest qbItems n
          match best.1 with
          | some item =>
            if best.2 ≥ 8 / 10 then
              { atekSku, qbItem := some item, matchType := "fuzzy_name"
                confidence := best.2 * (9 / 10) }
            else
              { atekSku, qbItem := none, matchType := "no_match", confidence := 0 }
          | none =>
            { atekSku, qbItem := none, matchType := "no_match", confidence := 0 }
        else
          { atekSku, qbItem := none, matchType := "no_match", confidence := 0 }
      | none =>
        { atekSku, qbItem := none, matchType := "no_match", confidence := 0 }

/-- The environment of the SKU matcher: the distinct invoice SKUs, the
connection flag, and the remote item fetch outcome. -/
structure SkuMatchEnv where
  atekSkus : List InvoiceSKU
  qbConnected : Bool
  qbItemsFetch : Except String (List QBItem)

/-- `matchInvoiceSKUsWithQBItems()`: when the remote system is disconnected
or the item fetch throws, every SKU is reported unmatched; otherwise each
distinct SKU is classified against the eligible items. -/
def matchInvoiceSKUsWithQBItems (env : SkuMatchEnv) : List SKUMatchResult :=
  if !env.qbConnected then
    env.atekSkus.map (fun sku =>
      { atekSku := sku, qbItem := none, matchType := "no_match", confidence := 0 })
  else
    match env.qbItemsFetch with
    | .error _ =>
      env.atekSkus.map (fun sku =>
        { atekSku := sku, qbItem := none, matchType := "no_match", confidence := 0 })
    | .ok qbItems =>
      let maps := buildSkuMaps qbItems
      env.atekSkus.map (classifySKU qbItems maps.1 maps.2)

/-! ## Decidability and extraction helpers -/

instance exceptDecEq {ε α : Type} [DecidableEq ε] [DecidableEq α] :
    DecidableEq (Except ε α)
  | .error e, .error f =>
    if h : e = f then .isTrue (by rw [h])
    else .isFalse (fun hc => h (by injection hc))
  | .error _, .ok _ => .isFalse (fun hc => Except.noConfusion hc)
  | .ok _, .error _ => .isFalse (fun hc => Except.noConfusion hc)
  | .ok x, .ok y =>
    if h : x = y then .isTrue (by rw [h])
    else .isFalse (fun hc => h (by injection hc))

/-- Extract the payload of a successful computation (default on error). -/
def exceptOkD {ε α : Type} [Inhabited α] (x : Except ε α) : α :=
  match x with
  | .ok v => v
  | .error _ => default

/-! ## Concrete fixtures

A small store and invoice population used to instantiate the theorems:
an approved customer mapping for organization `org1`, an approved SKU
mapping for code `A` only, and an invoice `inv1` with two line items
(codes `A` and `B`). -/

/-- Approved customer mapping of `org1` (no manager distinction). -/
def custRowOk : CustomerMappingRow :=
  { mappingId := 1, atekOrganizationId := "org1", atekOrganizationName := "Northwind"
    atekContractualManagerId := "", atekContractualManagerName := none
    atekContractualManagerEmail := none, quickbooksCustomerId := some "QC1"
    quickbooksCustomerName := some "0042 Northwind", quickbooksCustomerEmail := none
    mappingStatus := "approved", confidenceScore := 1, matchingMethod := "manual"
    nameMatchScore := 1, requiresManualReview := false
    createdDate := "d0", lastModifiedDate := "d0" }

/-- Approved SKU mapping for code `A`, linked to QuickBooks item `QI1`. -/
def skuRowA : SkuMappingRow :=
  { mappingId := 2, atekSkuId := "sidA", atekSkuCode := "A", atekSkuName := "Item A"
    mappingStatus := "approved", quickbooksItemId := some "QI1"
    quickbooksItemName := some "A" }

/-- Store with the two mappings above and no validation rows. -/
def dbC2 : Db :=
  { customerMappings := [custRowOk], skuMappings := [skuRowA]
    invoiceValidations := [], logs := [], nextId := 10 }

/-- Line item for the mapped SKU `A`. -/
def itemA : LineItem :=
  { skuId := "sidA", skuCode := some "A", skuName := some "Item A", description := none
    quantity := 1, unitPrice := 10, amount := 10, taxable := true }

/-- Line item for the unmapped SKU `B`. -/
def itemB : LineItem :=
  { skuId := "sidB", skuCode := some "B", skuName := some "Item B", description := none
    quantity := 1, unitPrice := 5, amount := 5, taxable := true }

/-- A `sent` invoice with the two line items above. -/
def invC2 : NormalizedInvoice :=
  { id := "inv1", invoiceNumber := "INV-1", organizationId := "org1"
    contractualManagerId := none, status := "sent", issueDate := "2026-01-01"
    dueDate := none, lineItems := [itemA, itemB], subtotal := 15, totalAmount := 15
    currency := "CAD", notes := none, privateNotes := none }

/-- Validation environment whose document store holds exactly `inv1`. -/
def envC2 : ValidationEnv :=
  { getInvoice := fun id => if id = "inv1" then some invC2 else none, now := "t0" }

/-- The validation result and store state of validating `inv1` over `dbC2`. -/
def c2pair : ValidationResult × Db := exceptOkD (validateInvoice envC2 dbC2 "inv1")

/-- A validation row for `inv1` already marked `synced`. -/
def syncedRow : InvoiceValidationRow :=
  { validationId := 5, atekInvoiceId := "inv1", atekInvoiceNumber := "INV-1"
    validationStatus := "synced", customerMappingValidated := true, allSkusMapped := true
    blockingIssues := [], confidenceScore := 1, readyForSync := true
    syncApprovedBy := none, syncApprovedDate := none
    quickbooksInvoiceId := some "QB-77", syncDate := some "t-1", createdDate := "t-2" }

/-- The store of `dbC2` with the synced row for `inv1` persisted. -/
def dbC1 : Db := { dbC2 with invoiceValidations := [syncedRow] }

/-- The validation result and store state of re-validating the synced `inv1`. -/
def c1pair : ValidationResult × Db := exceptOkD (validateInvoice envC2 dbC1 "inv1")

/-- An invoice identical to `inv1` but with an empty line-item list. -/
def invC10 : NormalizedInvoice :=
  { invC2 with id := "inv2", invoiceNumber := "INV-2", lineItems := [] }

/-- Validation environment whose document store holds exactly `inv2`. -/
def envC10 : ValidationEnv :=
  { getInvoice := fun id => if id = "inv2" then some invC10 else none, now := "t0" }

/-- The validation result and store state of validating the empty invoice. -/
def c10pair : ValidationResult × Db := exceptOkD (validateInvoice envC10 dbC2 "inv2")

/-- The issue emitted by the data-quality check for an empty line-item list. -/
def missingLineItemsIssue : BlockingIssue :=
  { type := "data_quality", severity := "error", code := "MISSING_LINE_ITEMS"
    message := "Invoice has no line items" }

/-- An invoice like `inv1` but carrying only the mapped line item `A`. -/
def invC3 : NormalizedInvoice :=
  { invC2 with id := "inv3", invoiceNumber := "INV-3", lineItems := [itemA] }

/-- A pre-existing remote invoice with the same document number as `inv3`. -/
def existingQB : QBInvoice :=
  { Id := "QB-9", DocNumber := some "INV-3", SyncToken := some "4" }

/-- Sync environment: `inv3` in the ledger, its duplicate already remote,
remote writes succeeding. -/
def envC3 : SyncEnv :=
  { getInvoice := fun id => if id = "inv3" then some invC3 else none
    qbInvoiceByDocNumber := fun dn => if dn = "INV-3" then some existingQB else none
    createOutcome := .ok "QB-NEW", updateError := none, now := "t1" }

/-- The customer resolution of `inv3` over the fixture store. -/
def c3cust : CustomerValidationResult :=
  checkCustomerMapping dbC2 invC3.organizationId invC3.contractualManagerId

/-- The payload built for `inv3` over the fixture store. -/
def c3payload : QBInvoicePayload :=
  ((buildQBInvoice dbC2 invC3 c3cust).invoice).getD default

/-- Sync environment where no duplicate exists and the remote create fails. -/
def envC4f : SyncEnv :=
  { envC3 with qbInvoiceByDocNumber := fun _ => none, createOutcome := .error "boom" }

/-- Three fully-mapped single-line invoices for the batch-sync scenario. -/
def invA : NormalizedInvoice :=
  { invC2 with id := "invA", invoiceNumber := "INV-A", lineItems := [itemA] }

/-- Second invoice of the batch-sync scenario (no remote duplicate). -/
def invB : NormalizedInvoice :=
  { invC2 with id := "invB", invoiceNumber := "INV-B", lineItems := [itemA] }

/-- Third invoice of the batch-sync scenario. -/
def invC : NormalizedInvoice :=
  { invC2 with id := "invC", invoiceNumber := "INV-C", lineItems := [itemA] }

/-- Remote duplicate of `invA`. -/
def qbA : QBInvoice := { Id := "QB-A", DocNumber := some "INV-A", SyncToken := some "1" }

/-- Remote duplicate of `invC`. -/
def qbC : QBInvoice := { Id := "QB-C", DocNumber := some "INV-C", SyncToken := some "2" }

/-- Batch-sync environment: `invA`/`invC` update remotely, `invB` takes the
create path and the remote create fails. -/
def envC7 : SyncEnv :=
  { getInvoice := fun id =>
      if id = "invA" then some invA
      else if id = "invB" then some invB
      else if id = "invC" then some invC
      else none
    qbInvoiceByDocNumber := fun dn =>
      if dn = "INV-A" then some qbA
      else if dn = "INV-C" then some qbC
      else none
    createOutcome := .error "boom", updateError := none, now := "t2" }

/-- A ledger organization with code 42 and name `Northwind`. -/
def orgNW : NormalizedOrganization :=
  { id := "o42", name := "Northwind", orgNumber := some 42 }

/-- A remote customer whose display name carries the matching code. -/
def custNW : QBCustomer := { Id := "1", DisplayName := "0042 Northwind" }

/-- The single structured-code candidate of `orgNW` against `[custNW]`. -/
def candNW : MatchCandidate :=
  { customer := custNW
    score := min (9 / 10 +
      (if combinedSimilarity orgNW.name (extractNameFromDisplayName custNW.DisplayName) > 8 / 10
        then (1 : ℚ) / 10
        else if combinedSimilarity orgNW.name
            (extractNameFromDisplayName custNW.DisplayName) > 5 / 10
          then (5 : ℚ) / 100 else 0)) 1
    factors := { orgNumMatch := true, orgNumScore := 1
                 nameScore := combinedSimilarity orgNW.name
                   (extractNameFromDisplayName custNW.DisplayName)
                 isSubCustomer := false } }

/-- A `proposed` mapping row for a second organization. -/
def proposedRow : CustomerMappingRow :=
  { custRowOk with
    mappingId := 2
    atekOrganizationId := "org2"
    mappingStatus := "proposed" }

/-- Store holding one approved and one proposed customer mapping. -/
def dbC8 : Db := { dbC2 with customerMappings := [custRowOk, proposedRow] }

/-- Organization targeted by the C8 matcher run. -/
def orgC8 : NormalizedOrganization := { id := "org2", name := "Acme", orgNumber := some 7 }

/-- Matcher output for `orgC8` against an empty remote customer list. -/
def resultC8 : CustomerMatchResult := matchOrganization orgC8 []

/-- An active remote item with SKU code `HW-100`. -/
def itemHW : QBItem :=
  { Id := "I1", Name := "Hardware Widget", Active := some true, Sku := some "HW-100" }

/-- A ledger SKU whose code is present verbatim in the catalog. -/
def skuHW : InvoiceSKU :=
  { skuId := "s1", code := some "HW-100", name := some "Hardware Widget" }

/-- SKU-matching environment: connected, one item fetched. -/
def envC9 : SkuMatchEnv :=
  { atekSkus := [skuHW], qbConnected := true, qbItemsFetch := .ok [itemHW] }

/-! ## Theorems -/

theorem roundToCents_ofCents (m : ℤ) : roundToCents ((m : ℚ) / 100) = (m : ℚ) / 100 := by
  unfold roundToCents
  have h : ((m : ℚ) / 100) * 100 = (m : ℚ) := by
    field_simp
  rw [h, round_intCast]

theorem buildQCTaxDetail_amounts (s : ℚ) :
    (buildQCTaxDetail s).TaxLine.map TaxLine.Amount =
      [roundToCents (s * (5 / 100)), roundToCents (s * (9975 / 100000))] := by
  unfold buildQCTaxDetail roundToCents QB_TAX_PERCENT_TPS QB_TAX_PERCENT_TVQ
  have h5 : round (s * (5 / 100) * 100) = round (s * 5) := by
    congr 1
    ring
  have h9 : round (s * (9975 / 100000) * 100) = round (s * (9975 / 1000)) := by
    congr 1
    ring
  simp only [List.map, h5, h9]

theorem buildQCTaxDetail_total (s : ℚ) :
    (buildQCTaxDetail s).TotalTax =
      roundToCents (s * (5 / 100)) + roundToCents (s * (9975 / 100000)) := by
  unfold buildQCTaxDetail QB_TAX_PERCENT_TPS QB_TAX_PERCENT_TVQ
  have h5 : round (s * (5 / 100) * 100) = round (s * 5) := by
    congr 1
    ring
  have h9 : round (s * (9975 / 100000) * 100) = round (s * (9975 / 1000)) := by
    congr 1
    ring
  simp only [roundToCents, h5, h9]
  have hsum :
      ((round (s * 5) : ℤ) / 100 + (round (s * (9975 / 1000)) : ℤ) / 100 : ℚ) * 100 =
        ((round (s * 5) + round (s * (9975 / 1000)) : ℤ) : ℚ) := by
    push_cast
    ring
  rw [hsum, round_intCast]
  push_cast
  ring

/-- C5: for every subtotal, the jurisdictional tax detail carries a 5 % and a
9.975 % component, each independently rounded to cents, and the reported total
tax equals their sum; at subtotal 1000 the components are 50.00 and 99.75 and
the total is 149.75. -/
theorem tax_detail_components_and_total (s : ℚ) :
    (buildQCTaxDetail s).TaxLine.map TaxLine.Amount =
        [roundToCents (s * (5 / 100)), roundToCents (s * (9975 / 100000))] ∧
    (buildQCTaxDetail s).TotalTax =
        roundToCents (s * (5 / 100)) + roundToCents (s * (9975 / 100000)) ∧
    (buildQCTaxDetail 1000).TaxLine.map TaxLine.Amount = [50, 399 / 4] ∧
    (buildQCTaxDetail 1000).TotalTax = 599 / 4 := by
  refine ⟨buildQCTaxDetail_amounts s, buildQCTaxDetail_total s, ?_, ?_⟩
  · unfold buildQCTaxDetail QB_TAX_PERCENT_TPS QB_TAX_PERCENT_TVQ
    norm_num [round_eq]
  · unfold buildQCTaxDetail QB_TAX_PERCENT_TPS QB_TAX_PERCENT_TVQ
    norm_num [round_eq]


/-- C1: once the persisted validation row of an invoice is `synced`, a later
`validateInvoice` call on that id skips the write entirely — the validation
table (hence `validationStatus` and `quickbooksInvoiceId` of the row) is
unchanged. -/
theorem validate_never_overwrites_synced (env : ValidationEnv) (db : Db)
    (atekInvoiceId : String) (invoice : NormalizedInvoice) (row : InvoiceValidationRow)
    (hinv : env.getInvoice atekInvoiceId = some invoice)
    (hid : invoice.id = atekInvoiceId)
    (hrow : db.invoiceValidations.find? (fun r => r.atekInvoiceId = atekInvoiceId) = some row)
    (hsynced : row.validationStatus = "synced")
    (res : ValidationResult) (db2 : Db)
    (hok : validateInvoice env db atekInvoiceId = .ok (res, db2)) :
    db2.invoiceValidations = db.invoiceValidations := by
  subst hid
  simp only [validateInvoice, hinv] at hok
  have hpair := Except.ok.inj hok
  have hdb : db2 = logValidationAttempt (storeValidationResult db invoice _ env.now) invoice :=
    (congrArg Prod.snd hpair).symm
  rw [hdb]
  simp only [logValidationAttempt]
  simp only [storeValidationResult, hrow]
  rw [hsynced]
  simp

theorem validate_never_overwrites_synced_witness :
    validateInvoice envC2 dbC1 "inv1" = .ok (c1pair.1, c1pair.2) ∧
    c1pair.2.invoiceValidations = dbC1.invoiceValidations := by
  have h : validateInvoice envC2 dbC1 "inv1" = .ok (c1pair.1, c1pair.2) := rfl
  exact ⟨h, validate_never_overwrites_synced envC2 dbC1 "inv1" invC2 syncedRow
    rfl rfl rfl rfl c1pair.1 c1pair.2 h⟩

/-- C2: `validateInvoice` returns confidence
`0.4·(1 if customer check passed else 0) + 0.6·(mapped/total, or 1 when no
SKUs)`; the status is `blocked` exactly when an aggregated issue has severity
`error`, else `ready`; `readyForSync` holds exactly when status is `ready`;
and the 2-line-item scenario (one approved SKU, one unmapped, customer
approved) is `blocked` with exactly one `SKU_NO_MAPPING` issue naming the
unmapped code and confidence 0.70. -/
theorem validate_confidence_and_status (env : ValidationEnv) (db : Db)
    (atekInvoiceId : String) (res : ValidationResult) (db2 : Db)
    (hok : validateInvoice env db atekInvoiceId = .ok (res, db2)) :
    res.confidenceScore =
        (if res.customerMappingValidated then (1 : ℚ) else 0) * (4 / 10) +
          (if res.skuSummary.total > 0 then
              (res.skuSummary.mapped : ℚ) / (res.skuSummary.total : ℚ)
            else 1) * (6 / 10) ∧
    (res.status = "blocked" ↔ ∃ issue ∈ res.blockingIssues, issue.severity = "error") ∧
    (res.status = "blocked" ∨ res.status = "ready") ∧
    (res.readyForSync = true ↔ res.status = "ready") ∧
    (c2pair.1.status = "blocked" ∧
     c2pair.1.blockingIssues.map (fun i => (i.code, i.detailSkus)) =
       [("SKU_NO_MAPPING", ["B"])] ∧
     c2pair.1.confidenceScore = 7 / 10) := by
  cases hfetch : env.getInvoice atekInvoiceId with
  | none =>
    rw [validateInvoice, hfetch] at hok
    exact absurd hok (by simp)
  | some invoice =>
    rw [validateInvoice, hfetch] at hok
    have hres := (congrArg Prod.fst (Except.ok.inj hok)).symm
    subst hres
    dsimp only
    refine ⟨rfl, ?_, ?_, ?_, rfl, rfl, ?_⟩
    · cases hE : ((checkCustomerMapping db invoice.organizationId
          invoice.contractualManagerId).issues ++
          (checkSkuMappings db invoice.lineItems).issues ++
          checkInvoiceStatus invoice ++ checkDataQuality invoice).any
            (fun issue => issue.severity = "error") with
      | true =>
        simpa using List.any_eq_true.mp hE
      | false =>
        simpa using List.any_eq_false.mp hE
    · cases hE : ((checkCustomerMapping db invoice.organizationId
          invoice.contractualManagerId).issues ++
          (checkSkuMappings db invoice.lineItems).issues ++
          checkInvoiceStatus invoice ++ checkDataQuality invoice).any
            (fun issue => issue.severity = "error") with
      | true =>
        left
        simp
      | false =>
        right
        simp
    · cases hE : ((checkCustomerMapping db invoice.organizationId
          invoice.contractualManagerId).issues ++
          (checkSkuMappings db invoice.lineItems).issues ++
          checkInvoiceStatus invoice ++ checkDataQuality invoice).any
            (fun issue => issue.severity = "error") with
      | true =>
        simp
      | false =>
        simp
    · have h1 : (checkCustomerMapping dbC2 invC2.organizationId
          invC2.contractualManagerId).isValid = true := rfl
      have h2 : (checkSkuMappings dbC2 invC2.lineItems).totalSkus = 2 := rfl
      have h3 : (checkSkuMappings dbC2 invC2.lineItems).mappedSkus = 1 := rfl
      show calculateConfidenceScore
        (checkCustomerMapping dbC2 invC2.organizationId invC2.contractualManagerId)
        (checkSkuMappings dbC2 invC2.lineItems) = 7 / 10
      simp only [calculateConfidenceScore, h1, h2, h3]
      norm_num

theorem validate_confidence_and_status_witness :
    validateInvoice envC2 dbC2 "inv1" = .ok (c2pair.1, c2pair.2) ∧
    (c2pair.1.status = "blocked" ↔
      ∃ issue ∈ c2pair.1.blockingIssues, issue.severity = "error") ∧
    (c2pair.1.readyForSync = true ↔ c2pair.1.status = "ready") := by
  have h : validateInvoice envC2 dbC2 "inv1" = .ok (c2pair.1, c2pair.2) := rfl
  have happ := validate_confidence_and_status envC2 dbC2 "inv1" c2pair.1 c2pair.2 h
  exact ⟨h, happ.2.1, happ.2.2.2.1⟩

/-- C10: an invoice with no line items gets a complete SKU check
(`allSkusMapped`, zero total SKUs) and a full SKU sub-score, yet is `blocked`
by the `MISSING_LINE_ITEMS` data-quality error, so its confidence is 0.6 plus
0.4 when the customer check passes while it is never ready for sync. -/
theorem empty_invoice_blocked_full_sku_score (env : ValidationEnv) (db : Db)
    (atekInvoiceId : String) (invoice : NormalizedInvoice) (res : ValidationResult) (db2 : Db)
    (hinv : env.getInvoice atekInvoiceId = some invoice)
    (hempty : invoice.lineItems = [])
    (hok : validateInvoice env db atekInvoiceId = .ok (res, db2)) :
    res.allSkusMapped = true ∧ res.skuSummary.total = 0 ∧
    res.status = "blocked" ∧ res.readyForSync = false ∧
    (∃ issue ∈ res.blockingIssues,
      issue.code = "MISSING_LINE_ITEMS" ∧ issue.severity = "error") ∧
    res.confidenceScore = (if res.customerMappingValidated then (4 : ℚ) / 10 else 0) + 6 / 10 := by
  rw [validateInvoice, hinv] at hok
  have hres := (congrArg Prod.fst (Except.ok.inj hok)).symm
  subst hres
  dsimp only
  have hsku : checkSkuMappings db invoice.lineItems =
      { isComplete := true, totalSkus := 0, mappedSkus := 0, unmappedSkus := [], issues := [] } := by
    rw [hempty]
    rfl
  have hmem : missingLineItemsIssue ∈ checkDataQuality invoice := by
    rw [checkDataQuality, if_pos hempty]
    simp [missingLineItemsIssue]
  have hmem2 : missingLineItemsIssue ∈
      (checkCustomerMapping db invoice.organizationId invoice.contractualManagerId).issues ++
        (checkSkuMappings db invoice.lineItems).issues ++
        checkInvoiceStatus invoice ++ checkDataQuality invoice := by
    simp [hmem]
  have hE : ((checkCustomerMapping db invoice.organizationId
      invoice.contractualManagerId).issues ++
      (checkSkuMappings db invoice.lineItems).issues ++
      checkInvoiceStatus invoice ++ checkDataQuality invoice).any
        (fun issue => issue.severity = "error") = true :=
    List.any_eq_true.mpr ⟨_, hmem2, by simp [missingLineItemsIssue]⟩
  refine ⟨?_, ?_, ?_, ?_, ⟨_, hmem2, rfl, rfl⟩, ?_⟩
  · rw [hsku]
  · rw [hsku]
  · rw [hE]
    rfl
  · rw [hE]
    rfl
  · simp only [calculateConfidenceScore, hsku]
    cases hv : (checkCustomerMapping db invoice.organizationId
        invoice.contractualManagerId).isValid with
    | true => norm_num
    | false => norm_num

theorem empty_invoice_blocked_full_sku_score_witness :
    validateInvoice envC10 dbC2 "inv2" = .ok (c10pair.1, c10pair.2) ∧
    c10pair.1.status = "blocked" ∧ c10pair.1.skuSummary.total = 0 := by
  have h : validateInvoice envC10 dbC2 "inv2" = .ok (c10pair.1, c10pair.2) := rfl
  have happ := empty_invoice_blocked_full_sku_score envC10 dbC2 "inv2" invC10
    c10pair.1 c10pair.2 rfl rfl h
  exact ⟨h, happ.2.2.1, happ.2.1⟩

/-- C3: when the remote system already holds an invoice with the invoice's
non-empty document number, `syncInvoice` updates that remote invoice in place
(one update call reusing its remote id and concurrency token, and no create
call), and the returned `quickbooksInvoiceId` is the pre-existing remote id. -/
theorem sync_duplicate_updates_in_place (env : SyncEnv) (db : Db)
    (atekInvoiceId : String) (ovr : Option String) (invoice : NormalizedInvoice)
    (existing : QBInvoice) (customerResult : CustomerValidationResult)
    (payload : QBInvoicePayload)
    (hinv : env.getInvoice atekInvoiceId = some invoice)
    (hnum : invoice.invoiceNumber ≠ "")
    (hdup : env.qbInvoiceByDocNumber invoice.invoiceNumber = some existing)
    (hcust : resolveCustomer db (getValidationStatus db atekInvoiceId) invoice
      atekInvoiceId ovr = .ok customerResult)
    (hbuild : (buildQBInvoice db invoice customerResult).invoice = some payload)
    (hupd : env.updateError = none) :
    (syncInvoice env db atekInvoiceId ovr).1.success = true ∧
    (syncInvoice env db atekInvoiceId ovr).1.quickbooksInvoiceId = some existing.Id ∧
    (syncInvoice env db atekInvoiceId ovr).2.2 =
      [.qbUpdate existing.Id (strOr existing.SyncToken "0"),
       .markedSynced atekInvoiceId existing.Id] ∧
    SyncEffect.qbCreate ∉ (syncInvoice env db atekInvoiceId ovr).2.2 := by
  simp only [syncInvoice, hinv, hcust, hdup, hbuild, hnum, updateQBInvoice, hupd,
    ne_eq, not_false_eq_true, if_true]
  simp

/-- A short-circuit failure of customer resolution is a failure result. -/
theorem resolveCustomer_error_success (db : Db) (validation : Option InvoiceValidationRow)
    (invoice : NormalizedInvoice) (atekInvoiceId : String) (ovr : Option String)
    (r : InvoiceSyncResult)
    (h : resolveCustomer db validation invoice atekInvoiceId ovr = .error r) :
    r.success = false := by
  unfold resolveCustomer at h
  cases ovr with
  | some cid => exact absurd h (by simp)
  | none =>
    dsimp only at h
    split at h
    · cases h
      rfl
    · split at h
      · cases h
        rfl
      · exact absurd h (by simp)

/-- A failed sync leaves the store untouched and never records a
`markedSynced` effect; a successful sync marks the row synced with the
returned remote invoice id. -/
theorem syncInvoice_state_change (env : SyncEnv) (db : Db)
    (atekInvoiceId : String) (ovr : Option String) :
    ((syncInvoice env db atekInvoiceId ovr).1.success = false →
      (syncInvoice env db atekInvoiceId ovr).2.1 = db ∧
      ∀ a q, SyncEffect.markedSynced a q ∉ (syncInvoice env db atekInvoiceId ovr).2.2) ∧
    ((syncInvoice env db atekInvoiceId ovr).1.success = true →
      ∃ qbId, (syncInvoice env db atekInvoiceId ovr).1.quickbooksInvoiceId = some qbId ∧
        SyncEffect.markedSynced atekInvoiceId qbId ∈ (syncInvoice env db atekInvoiceId ovr).2.2 ∧
        (syncInvoice env db atekInvoiceId ovr).2.1 = markAsSynced db atekInvoiceId qbId env.now) := by
  cases hfetch : env.getInvoice atekInvoiceId with
  | none =>
    simp only [syncInvoice, hfetch]
    simp
  | some invoice =>
    cases hres : resolveCustomer db (getValidationStatus db atekInvoiceId) invoice
        atekInvoiceId ovr with
    | error r =>
      simp only [syncInvoice, hfetch, hres]
      have hs := resolveCustomer_error_success db _ invoice atekInvoiceId ovr r hres
      simp [hs]
    | ok customerResult =>
      by_cases hnum : invoice.invoiceNumber = ""
      · simp only [syncInvoice, hfetch, hres, hnum]
        simp only [ne_eq, not_true_eq_false, if_false]
        cases hbuild : (buildQBInvoice db invoice customerResult).invoice with
        | none => simp [hbuild]
        | some payload =>
          cases hco : env.createOutcome with
          | error m => simp [hbuild, createQBInvoice, hco]
          | ok newId => simp [hbuild, createQBInvoice, hco]
      · cases hdup : env.qbInvoiceByDocNumber invoice.invoiceNumber with
        | none =>
          simp only [syncInvoice, hfetch, hres, hdup, hnum, ne_eq, not_false_eq_true, if_true]
          cases hbuild : (buildQBInvoice db invoice customerResult).invoice with
          | none => simp [hbuild]
          | some payload =>
            cases hco : env.createOutcome with
            | error m => simp [hbuild, createQBInvoice, hco]
            | ok newId => simp [hbuild, createQBInvoice, hco]
        | some existing =>
          simp only [syncInvoice, hfetch, hres, hdup, hnum, ne_eq, not_false_eq_true, if_true]
          cases hbuild : (buildQBInvoice db invoice customerResult).invoice with
          | none => simp [hbuild]
          | some payload =>
            cases hue : env.updateError with
            | none => simp [hbuild, updateQBInvoice, hue]
            | some m => simp [hbuild, updateQBInvoice, hue]

/-- C4: when the remote create or update call fails, `syncInvoice` returns a
failure whose error string carries the upstream message (prefixed `QB Error:`
resp. `QB Update Error:`) and the local store is untouched — `markAsSynced`
never runs; conversely, on success the row is marked `synced` with the remote
invoice id. -/
theorem sync_remote_failure_and_success (env : SyncEnv) (db : Db)
    (atekInvoiceId : String) (ovr : Option String) :
    ((syncInvoice env db atekInvoiceId ovr).1.success = false →
      (syncInvoice env db atekInvoiceId ovr).2.1 = db ∧
      ∀ a q, SyncEffect.markedSynced a q ∉ (syncInvoice env db atekInvoiceId ovr).2.2) ∧
    ((syncInvoice env db atekInvoiceId ovr).1.success = true →
      ∃ qbId, (syncInvoice env db atekInvoiceId ovr).1.quickbooksInvoiceId = some qbId ∧
        SyncEffect.markedSynced atekInvoiceId qbId ∈ (syncInvoice env db atekInvoiceId ovr).2.2 ∧
        (syncInvoice env db atekInvoiceId ovr).2.1 =
          markAsSynced db atekInvoiceId qbId env.now) ∧
    (∀ invoice customerResult payload m,
      env.getInvoice atekInvoiceId = some invoice →
      resolveCustomer db (getValidationStatus db atekInvoiceId) invoice
        atekInvoiceId ovr = .ok customerResult →
      (buildQBInvoice db invoice customerResult).invoice = some payload →
      (((invoice.invoiceNumber ≠ "" →
          env.qbInvoiceByDocNumber invoice.invoiceNumber = none) →
        env.createOutcome = .error m →
        (syncInvoice env db atekInvoiceId ovr).1.success = false ∧
        (syncInvoice env db atekInvoiceId ovr).1.error = some ("QB Error: " ++ m)) ∧
       (∀ existing, invoice.invoiceNumber ≠ "" →
        env.qbInvoiceByDocNumber invoice.invoiceNumber = some existing →
        env.updateError = some m →
        (syncInvoice env db atekInvoiceId ovr).1.success = false ∧
        (syncInvoice env db atekInvoiceId ovr).1.error =
          some ("QB Update Error: " ++ m)))) := by
  refine ⟨(syncInvoice_state_change env db atekInvoiceId ovr).1,
    (syncInvoice_state_change env db atekInvoiceId ovr).2, ?_⟩
  intro invoice customerResult payload m hfetch hres hbuild
  constructor
  · intro hdupnone hco
    by_cases hnum : invoice.invoiceNumber = ""
    · simp only [syncInvoice, hfetch, hres, hnum, ne_eq, not_true_eq_false, if_false]
      simp [hbuild, createQBInvoice, hco]
    · have hdup := hdupnone hnum
      simp only [syncInvoice, hfetch, hres, hdup, hnum, ne_eq, not_false_eq_true, if_true]
      simp [hbuild, createQBInvoice, hco]
  · intro existing hnum hdup hue
    simp only [syncInvoice, hfetch, hres, hdup, hnum, ne_eq, not_false_eq_true, if_true]
    simp [hbuild, updateQBInvoice, hue]

theorem sync_duplicate_updates_in_place_witness :
    envC3.getInvoice "inv3" = some invC3 ∧
    (syncInvoice envC3 dbC2 "inv3" none).1.success = true ∧
    (syncInvoice envC3 dbC2 "inv3" none).1.quickbooksInvoiceId = some existingQB.Id ∧
    SyncEffect.qbCreate ∉ (syncInvoice envC3 dbC2 "inv3" none).2.2 := by
  have happ := sync_duplicate_updates_in_place envC3 dbC2 "inv3" none invC3 existingQB
    c3cust c3payload rfl (by decide) rfl rfl rfl rfl
  exact ⟨rfl, happ.1, happ.2.1, happ.2.2.2⟩

theorem sync_remote_failure_and_success_witness :
    (syncInvoice envC4f dbC2 "inv3" none).1.success = false ∧
    (syncInvoice envC4f dbC2 "inv3" none).2.1 = dbC2 ∧
    (syncInvoice envC4f dbC2 "inv3" none).1.error = some ("QB Error: " ++ "boom") := by
  have happ := sync_remote_failure_and_success envC4f dbC2 "inv3" none
  have hsucc : (syncInvoice envC4f dbC2 "inv3" none).1.success = false := rfl
  have herr := happ.2.2 invC3 c3cust c3payload "boom" rfl rfl rfl
  exact ⟨hsucc, (happ.1 hsucc).1, (herr.1 (fun _ => rfl) rfl).2⟩

/-- The batch-sync loop pushes exactly one result record per processed id. -/
theorem syncBatch_foldl_results_length (env : SyncEnv) (ids : List String) (acc : SyncBatchAcc) :
    (ids.foldl (syncBatchStep env) acc).results.length = acc.results.length + ids.length := by
  induction ids generalizing acc with
  | nil => simp
  | cons id rest ih =>
    rw [List.foldl_cons, ih]
    have hstep : (syncBatchStep env acc id).results.length = acc.results.length + 1 := by
      unfold syncBatchStep
      dsimp only
      split
      · simp
      · split
        · simp
        · simp
    rw [hstep, List.length_cons]
    omega

/-- The batch-validate loop pushes at most one result record per id. -/
theorem validateBatch_foldl_length_le (env : ValidationEnv) (ids : List String)
    (acc : List ValidationResult × Db) :
    (ids.foldl (validateBatchStep env) acc).1.length ≤ acc.1.length + ids.length := by
  induction ids generalizing acc with
  | nil => simp
  | cons id rest ih =>
    rw [List.foldl_cons]
    refine le_trans (ih _) ?_
    have hstep : (validateBatchStep env acc id).1.length ≤ acc.1.length + 1 := by
      unfold validateBatchStep
      split
      · simp
      · simp
    rw [List.length_cons]
    omega

/-- C7 (amended): `syncBatch` isolates per-item failures and returns exactly
one result record per input id with total/successful/failed/skipped counts;
`validateBatch` isolates per-item failures but returns a result record only
for each id whose validation did not throw — its `total` equals the number of
returned records, which can be fewer than the input ids.  The 3-invoice batch
whose second invoice's remote write throws still returns 3 records with
`successful = 2`, `failed = 1`. -/
theorem batch_error_isolation (env : SyncEnv) (db : Db) (ids : List String)
    (venv : ValidationEnv) (vdb : Db) (vids : List String) :
    (syncBatch env db ids).1.results.length = ids.length ∧
    (syncBatch env db ids).1.total = ids.length ∧
    (validateBatch venv vdb vids).1.total = (validateBatch venv vdb vids).1.results.length ∧
    (validateBatch venv vdb vids).1.results.length ≤ vids.length ∧
    (syncBatch envC7 dbC2 ["invA", "invB", "invC"]).1.results.length = 3 ∧
    (syncBatch envC7 dbC2 ["invA", "invB", "invC"]).1.successful = 2 ∧
    (syncBatch envC7 dbC2 ["invA", "invB", "invC"]).1.failed = 1 ∧
    (syncBatch envC7 dbC2 ["invA", "invB", "invC"]).1.skipped = 0 ∧
    (syncBatch envC7 dbC2 ["invA", "invB", "invC"]).1.results.map
      (fun r => (r.success, r.error)) =
      [(true, none), (false, some "QB Error: boom"), (true, none)] := by
  refine ⟨?_, rfl, rfl, ?_, rfl, rfl, rfl, rfl, rfl⟩
  · have h := syncBatch_foldl_results_length env ids
      { results := [], successful := 0, failed := 0, skipped := 0, db := db }
    simpa [syncBatch] using h
  · have h := validateBatch_foldl_length_le venv vids ([], vdb)
    simpa [validateBatch] using h

/-- C7 counterexample: a 2-id `validateBatch` whose second id is absent from
the ledger (`validateInvoice` throws) returns only one result record, so the
batch operations do not always return one record per input id. -/
theorem validateBatch_missing_record_counterexample :
    ¬ ((validateBatch envC2 dbC2 ["inv1", "missing"]).1.results.length =
        (["inv1", "missing"] : List String).length) := by decide

/-- The matcher's upsert keeps the surrogate key of the row it refreshes. -/
theorem mappingId_storeMappingData (org : NormalizedOrganization)
    (result : CustomerMatchResult) (manager : Option Manager) (now : String)
    (r : CustomerMappingRow) :
    (storeMappingData org result manager now r).mappingId = r.mappingId := rfl

/-- With unique surrogate keys, equal keys mean the same row. -/
theorem customerMappings_id_inj (l : List CustomerMappingRow)
    (hnodup : (l.map (fun r => r.mappingId)).Nodup)
    {a b : CustomerMappingRow} (ha : a ∈ l) (hb : b ∈ l)
    (hid : a.mappingId = b.mappingId) : a = b := by
  by_contra hne
  have hp : l.Pairwise (fun x y => x.mappingId ≠ y.mappingId) := by
    rw [List.Nodup, List.pairwise_map] at hnodup
    exact hnodup
  have hsym : Symmetric (fun x y : CustomerMappingRow => x.mappingId ≠ y.mappingId) :=
    fun x y h he => h he.symm
  exact hp.forall hsym ha hb hne hid

/-- C8: a matcher batch run refreshes an existing mapping row only when its
status is `proposed` or `needs_review` — rows in any other status (in
particular `approved` and `rejected`) survive verbatim and no row with their
key is altered — and the clear-unapproved operation deletes exactly the
`proposed` and `needs_review` rows. -/
theorem matcher_preserves_human_decisions (db : Db) (org : NormalizedOrganization)
    (result : CustomerMatchResult) (manager : Option Manager) (now : String)
    (hnodup : (db.customerMappings.map (fun r => r.mappingId)).Nodup)
    (hfresh : ∀ r ∈ db.customerMappings, r.mappingId < db.nextId) :
    (∀ r ∈ db.customerMappings,
      ¬(r.mappingStatus = "proposed" ∨ r.mappingStatus = "needs_review") →
      r ∈ (storeMapping db org result manager now).customerMappings ∧
      ∀ r2 ∈ (storeMapping db org result manager now).customerMappings,
        r2.mappingId = r.mappingId → r2 = r) ∧
    (∀ ex, db.customerMappings.find? (fun r =>
        r.atekOrganizationId = org.id &&
        r.atekContractualManagerId = strOr (manager.map (fun m => m.id)) "") = some ex →
      (ex.mappingStatus = "proposed" ∨ ex.mappingStatus = "needs_review") →
      storeMappingData org result manager now ex ∈
        (storeMapping db org result manager now).customerMappings) ∧
    ((clearAllMappings db).customerMappings =
      db.customerMappings.filter (fun r =>
        !(r.mappingStatus = "proposed" || r.mappingStatus = "needs_review"))) := by
  refine ⟨?_, ?_, ?_⟩
  · intro r hr hstatus
    cases hfind : db.customerMappings.find? (fun x =>
        x.atekOrganizationId = org.id &&
        x.atekContractualManagerId = strOr (manager.map (fun m => m.id)) "") with
    | none =>
      constructor
      · simp only [storeMapping, hfind]
        exact List.mem_append_left _ hr
      · intro r2 hr2 hid
        simp only [storeMapping, hfind] at hr2
        rcases List.mem_append.mp hr2 with h2 | h2
        · exact customerMappings_id_inj db.customerMappings hnodup h2 hr hid
        · exfalso
          have hnew : r2.mappingId = db.nextId := by
            rcases List.mem_singleton.mp h2 with rfl
            rfl
          have := hfresh r hr
          omega
    | some ex =>
      have hexmem : ex ∈ db.customerMappings := List.mem_of_find?_eq_some hfind
      by_cases hover : ex.mappingStatus = "proposed" ∨ ex.mappingStatus = "needs_review"
      · have hrne : r.mappingId ≠ ex.mappingId := by
          intro hideq
          have := customerMappings_id_inj db.customerMappings hnodup hr hexmem hideq
          rw [this] at hstatus
          exact hstatus hover
        have hbr : (ex.mappingStatus = "proposed" || ex.mappingStatus = "needs_review") = true := by
          rcases hover with h | h
          · simp [h]
          · simp [h]
        constructor
        · simp only [storeMapping, hfind, hbr, if_true]
          have hm := List.mem_map_of_mem (fun x =>
            if x.mappingId = ex.mappingId then storeMappingData org result manager now x
            else x) hr
          simpa [if_neg hrne] using hm
        · intro r2 hr2 hid
          simp only [storeMapping, hfind, hbr, if_true] at hr2
          rcases List.mem_map.mp hr2 with ⟨r', hr', hr2eq⟩
          have hido : r'.mappingId = r.mappingId := by
            rw [← hr2eq] at hid
            split at hid
            · rw [mappingId_storeMappingData] at hid
              exact hid
            · exact hid
          have hr'r : r' = r := customerMappings_id_inj db.customerMappings hnodup hr' hr hido
          subst hr'r
          rw [← hr2eq, if_neg hrne]
      · have hbr : (ex.mappingStatus = "proposed" || ex.mappingStatus = "needs_review") = false := by
          rcases (not_or.mp hover) with ⟨h1, h2⟩
          simp [h1, h2]
        constructor
        · simp only [storeMapping, hfind, hbr, if_false]
          exact hr
        · intro r2 hr2 hid
          simp only [storeMapping, hfind, hbr, if_false] at hr2
          exact customerMappings_id_inj db.customerMappings hnodup hr2 hr hid
  · intro ex hfind hover
    have hexmem : ex ∈ db.customerMappings := List.mem_of_find?_eq_some hfind
    have hbr : (ex.mappingStatus = "proposed" || ex.mappingStatus = "needs_review") = true := by
      rcases hover with h | h
      · simp [h]
      · simp [h]
    simp only [storeMapping, hfind, hbr, if_true]
    have hm := List.mem_map_of_mem (fun x =>
      if x.mappingId = ex.mappingId then storeMappingData org result manager now x
      else x) hexmem
    simpa using hm
  · show ((db.customerMappings.filter _).filter _) = _
    rw [List.filter_filter]
    congr 1
    funext r
    rw [Bool.not_or, Bool.and_comm]
/-- Membership in a stable descending insertion. -/
theorem mem_insertCandidateDesc (x z : MatchCandidate) (l : List MatchCandidate) :
    z ∈ insertCandidateDesc x l ↔ z = x ∨ z ∈ l := by
  induction l with
  | nil => simp [insertCandidateDesc]
  | cons y ys ih =>
    unfold insertCandidateDesc
    split
    · simp only [List.mem_cons, ih]
      tauto
    · simp only [List.mem_cons]

/-- Stable descending insertion preserves descending order. -/
theorem sorted_insertCandidateDesc (x : MatchCandidate) (l : List MatchCandidate)
    (hl : l.Pairwise (fun a b => b.score ≤ a.score)) :
    (insertCandidateDesc x l).Pairwise (fun a b => b.score ≤ a.score) := by
  induction l with
  | nil => simp [insertCandidateDesc]
  | cons y ys ih =>
    rcases List.pairwise_cons.mp hl with ⟨hy, hys⟩
    unfold insertCandidateDesc
    split
    · next hge =>
      refine List.pairwise_cons.mpr ⟨?_, ih hys⟩
      intro z hz
      rcases (mem_insertCandidateDesc x z ys).mp hz with rfl | hz2
      · exact hge
      · exact hy z hz2
    · next hlt =>
      refine List.pairwise_cons.mpr ⟨?_, hl⟩
      intro z hz
      rcases List.mem_cons.mp hz with rfl | hz2
      · exact le_of_lt (lt_of_not_ge hlt)
      · exact le_trans (hy z hz2) (le_of_lt (lt_of_not_ge hlt))

/-- Membership across the insertion-sort fold. -/
theorem mem_foldl_insertCandidateDesc (l : List MatchCandidate) :
    ∀ (acc : List MatchCandidate) (z : MatchCandidate),
      z ∈ l.foldl (fun acc x => insertCandidateDesc x acc) acc ↔ z ∈ acc ∨ z ∈ l := by
  induction l with
  | nil => simp
  | cons y ys ih =>
    intro acc z
    rw [List.foldl_cons, ih, mem_insertCandidateDesc]
    simp only [List.mem_cons]
    tauto

/-- Sorting the candidates changes no membership. -/
theorem mem_sortCandidatesDesc (l : List MatchCandidate) (z : MatchCandidate) :
    z ∈ sortCandidatesDesc l ↔ z ∈ l := by
  rw [sortCandidatesDesc, mem_foldl_insertCandidateDesc]
  simp

/-- The sorted candidate list is score-descending. -/
theorem sorted_sortCandidatesDesc (l : List MatchCandidate) :
    (sortCandidatesDesc l).Pairwise (fun a b => b.score ≤ a.score) := by
  rw [sortCandidatesDesc]
  have h : ∀ (acc : List MatchCandidate),
      acc.Pairwise (fun a b => b.score ≤ a.score) →
      (l.foldl (fun acc x => insertCandidateDesc x acc) acc).Pairwise
        (fun a b => b.score ≤ a.score) := by
    induction l with
    | nil => intro acc hacc; simpa using hacc
    | cons y ys ih =>
      intro acc hacc
      rw [List.foldl_cons]
      exact ih _ (sorted_insertCandidateDesc y acc hacc)
  exact h [] (by simp)

/-- The head of the sorted candidate list dominates every candidate. -/
theorem sortCandidatesDesc_head_ge (l : List MatchCandidate) (b : MatchCandidate)
    (rest : List MatchCandidate) (hhead : sortCandidatesDesc l = b :: rest) :
    ∀ z ∈ l, z.score ≤ b.score := by
  intro z hz
  have hz2 : z ∈ sortCandidatesDesc l := (mem_sortCandidatesDesc l z).mpr hz
  rw [hhead] at hz2
  rcases List.mem_cons.mp hz2 with rfl | hz3
  · exact le_refl _
  · have hs := sorted_sortCandidatesDesc l
    rw [hhead] at hs
    exact (List.pairwise_cons.mp hs).1 z hz3
/-- C6: a non-sub-entity customer whose extracted code equals the
organization's padded code yields a candidate scored `min (0.90 + bonus) 1`
(bonus 0.10 above 0.80 name similarity, else 0.05 above 0.50); the fuzzy
fallback runs only when no code candidate exists, keeps only similarities
above 0.60, and scores `0.70·s` above 0.85 similarity else `0.50·s` (so a
pure-name match at similarity 0.95 scores 0.665 < 0.70); candidates are
ranked by score descending and the best is selected, with method
`org_num_exact` for a code match, and the `0042 Northwind` example matches
with method `org_num_exact` at confidence 1. -/
theorem customer_match_scoring (org : NormalizedOrganization) (qbCustomers : List QBCustomer) :
    (∀ c ∈ qbCustomers,
      extractOrgNumber c.DisplayName = some (padOrgNumber org.orgNumber) →
      isSubCustomer c.DisplayName = false →
      padOrgNumber org.orgNumber ≠ "" →
      ∃ cand ∈ matchCandidates org qbCustomers,
        cand.customer = c ∧ cand.factors.orgNumMatch = true ∧
        cand.score = min (9 / 10 +
          (if combinedSimilarity org.name (extractNameFromDisplayName c.DisplayName) > 8 / 10
            then (1 : ℚ) / 10
            else if combinedSimilarity org.name (extractNameFromDisplayName c.DisplayName) > 5 / 10
              then 5 / 100 else 0)) 1) ∧
    (codeCandidates org qbCustomers ≠ [] →
      matchCandidates org qbCustomers = codeCandidates org qbCustomers) ∧
    (codeCandidates org qbCustomers = [] →
      matchCandidates org qbCustomers = fuzzyCandidates org qbCustomers) ∧
    (∀ cand ∈ fuzzyCandidates org qbCustomers,
      ∃ c ∈ qbCustomers,
        cand.customer = c ∧ isSubCustomer c.DisplayName = false ∧
        cand.factors.orgNumMatch = false ∧
        cand.factors.nameScore =
          combinedSimilarity org.name (extractNameFromDisplayName c.DisplayName) ∧
        cand.factors.nameScore > 6 / 10 ∧
        cand.score = (if cand.factors.nameScore > 85 / 100 then (7 : ℚ) / 10 else 5 / 10) *
          cand.factors.nameScore) ∧
    ((if (19 / 20 : ℚ) > 85 / 100 then (7 : ℚ) / 10 else 5 / 10) * (19 / 20) < 7 / 10) ∧
    (∀ cand ∈ matchCandidates org qbCustomers,
      cand.score ≤ (matchOrganization org qbCustomers).confidenceScore) ∧
    (∀ best rest, sortCandidatesDesc (matchCandidates org qbCustomers) = best :: rest →
      (matchOrganization org qbCustomers).qbCustomer = some best.customer ∧
      (matchOrganization org qbCustomers).confidenceScore = best.score ∧
      (matchOrganization org qbCustomers).matchingMethod =
        (if best.factors.orgNumMatch then "org_num_exact" else "name_fuzzy")) ∧
    ((matchOrganization orgNW [custNW]).matchingMethod = "org_num_exact" ∧
     (matchOrganization orgNW [custNW]).confidenceScore = 1) := by
  refine ⟨?_, ?_, ?_, ?_, by norm_num, ?_, ?_, ?_⟩
  · intro c hc hcode hsub hpad
    have hmem : c ∈ (qbCustomers.filter (fun x =>
        extractOrgNumber x.DisplayName = some (padOrgNumber org.orgNumber))).filter
        (fun x => !isSubCustomer x.DisplayName) := by
      refine List.mem_filter.mpr ⟨List.mem_filter.mpr ⟨hc, ?_⟩, ?_⟩
      · simp [hcode]
      · simp [hsub]
    have hx : ∃ cand ∈ codeCandidates org qbCustomers,
        cand.customer = c ∧ cand.factors.orgNumMatch = true ∧
        cand.score = min (9 / 10 +
          (if combinedSimilarity org.name (extractNameFromDisplayName c.DisplayName) > 8 / 10
            then (1 : ℚ) / 10
            else if combinedSimilarity org.name (extractNameFromDisplayName c.DisplayName) > 5 / 10
              then 5 / 100 else 0)) 1 := by
      rw [codeCandidates]
      rw [if_pos hpad]
      exact ⟨_, List.mem_map_of_mem _ hmem, rfl, rfl, rfl⟩
    rcases hx with ⟨cand, hcand, hrest⟩
    have hne : codeCandidates org qbCustomers ≠ [] := List.ne_nil_of_mem hcand
    have hmc : matchCandidates org qbCustomers = codeCandidates org qbCustomers := by
      rw [matchCandidates]
      simp [hne]
    exact ⟨cand, hmc ▸ hcand, hrest⟩
  · intro h
    rw [matchCandidates]
    simp [h]
  · intro h
    rw [matchCandidates]
    simp [h]
  · intro cand hcand
    rcases List.mem_filterMap.mp hcand with ⟨c, hc, hf⟩
    refine ⟨c, hc, ?_⟩
    cases hsubv : isSubCustomer c.DisplayName with
    | true => simp [hsubv] at hf
    | false =>
      simp only [hsubv, Bool.false_eq_true, if_false] at hf
      by_cases hgt : combinedSimilarity org.name (extractNameFromDisplayName c.DisplayName) > 6 / 10
      · rw [if_pos hgt] at hf
        cases Option.some.inj hf
        exact ⟨rfl, rfl, rfl, rfl, hgt, rfl⟩
      · rw [if_neg hgt] at hf
        cases hf
  · intro cand hcand
    cases hsort : sortCandidatesDesc (matchCandidates org qbCustomers) with
    | nil =>
      exfalso
      have := (mem_sortCandidatesDesc _ cand).mpr hcand
      rw [hsort] at this
      cases this
    | cons b rest =>
      have hle := sortCandidatesDesc_head_ge _ b rest hsort cand hcand
      rw [matchOrganization]
      simp only [hsort]
      exact hle
  · intro best rest hsort
    rw [matchOrganization]
    simp [hsort]
  · have hname : combinedSimilarity orgNW.name (extractNameFromDisplayName custNW.DisplayName) = 1 := by
      have hs : stringSimilarity "Northwind" "Northwind" = 1 := rfl
      have ht : tokenSimilarity "Northwind" "Northwind" = ((1 : ℕ) : ℚ) / ((1 : ℕ) : ℚ) := rfl
      show combinedSimilarity "Northwind" "Northwind" = 1
      rw [combinedSimilarity, hs, ht]
      norm_num
    have hcode1 : codeCandidates orgNW [custNW] = [candNW] := rfl
    have hmc : matchCandidates orgNW [custNW] = [candNW] := by
      rw [matchCandidates, hcode1]
      simp
    have hsortNW : sortCandidatesDesc (matchCandidates orgNW [custNW]) = [candNW] := by
      rw [hmc]
      rfl
    have hscore : candNW.score = 1 := by
      rw [candNW]
      simp only [hname]
      norm_num
    constructor
    · rw [matchOrganization]
      simp only [hsortNW]
      rfl
    · rw [matchOrganization]
      simp only [hsortNW]
      exact hscore
theorem customer_match_scoring_witness :
    (∃ cand ∈ matchCandidates orgNW [custNW],
      cand.customer = custNW ∧ cand.factors.orgNumMatch = true ∧
      cand.score = min (9 / 10 +
        (if combinedSimilarity orgNW.name (extractNameFromDisplayName custNW.DisplayName) > 8 / 10
          then (1 : ℚ) / 10
          else if combinedSimilarity orgNW.name (extractNameFromDisplayName custNW.DisplayName) > 5 / 10
            then 5 / 100 else 0)) 1) ∧
    (matchOrganization orgNW [custNW]).matchingMethod = "org_num_exact" ∧
    (matchOrganization orgNW [custNW]).confidenceScore = 1 := by
  have happ := customer_match_scoring orgNW [custNW]
  exact ⟨happ.1 custNW (by decide) rfl rfl (by decide),
    happ.2.2.2.2.2.2.2.1, happ.2.2.2.2.2.2.2.2⟩

theorem matcher_preserves_human_decisions_witness :
    custRowOk ∈ (storeMapping dbC8 orgC8 resultC8 none "t3").customerMappings ∧
    (clearAllMappings dbC8).customerMappings =
      dbC8.customerMappings.filter (fun r =>
        !(r.mappingStatus = "proposed" || r.mappingStatus = "needs_review")) := by
  have happ := matcher_preserves_human_decisions dbC8 orgC8 resultC8 none "t3"
    (by decide) (by decide)
  exact ⟨(happ.1 custRowOk (by decide) (by decide)).1, happ.2.2⟩

/-- `find?` by key commutes with a key-preserving map. -/
theorem find?_map_keyInvariant (m : List (String × QBItem))
    (f : String × QBItem → String × QBItem) (hf : ∀ p, (f p).1 = p.1) (k : String) :
    (m.map f).find? (fun p => p.1 = k) = (m.find? (fun p => p.1 = k)).map f := by
  induction m with
  | nil => simp
  | cons p ps ih =>
    simp only [List.map_cons, List.find?_cons]
    rw [hf p]
    split
    · rfl
    · exact ih

/-- Lookup after an overwriting insertion. -/
theorem assocGet_assocPut (m : List (String × QBItem)) (k : String) (v : QBItem)
    (k2 : String) :
    assocGet (assocPut m k v) k2 = if k2 = k then some v else assocGet m k2 := by
  unfold assocPut assocGet
  by_cases hfind : (m.find? (fun p => p.1 = k)).isSome = true
  · rw [if_pos hfind]
    have hf : ∀ p : String × QBItem, ((fun p => if p.1 = k then (k, v) else p) p).1 = p.1 := by
      intro p
      dsimp only
      split
      · next h => exact h.symm
      · rfl
    rw [find?_map_keyInvariant m _ hf k2]
    by_cases hk : k2 = k
    · subst hk
      rcases Option.isSome_iff_exists.mp hfind with ⟨p, hp⟩
      rw [hp]
      have hpk : p.1 = k2 := by
        have := List.find?_some hp
        exact of_decide_eq_true this
      simp [hpk]
    · rw [if_neg hk]
      cases hfp : m.find? (fun p => p.1 = k2) with
      | none => rfl
      | some p =>
        have hpk : p.1 = k2 := by
          have := List.find?_some hfp
          exact of_decide_eq_true this
        have : ¬(p.1 = k) := by
          rw [hpk]
          exact hk
        simp [this]
  · rw [if_neg hfind]
    have hnone : m.find? (fun p => p.1 = k) = none := by
      cases h : m.find? (fun p => p.1 = k) with
      | none => rfl
      | some p => exact absurd (by rw [h]; rfl) hfind
    rw [List.find?_append]
    by_cases hk : k2 = k
    · subst hk
      rw [hnone]
      simp
    · rw [if_neg hk]
      have hne : ¬(k = k2) := fun h => hk h.symm
      have : ([(k, v)].find? (fun p => p.1 = k2)) = none := by
        simp [List.find?, hne]
      rw [this]
      simp

/-- An overwriting insertion never removes a key. -/
theorem assocGet_assocPut_isSome (m : List (String × QBItem)) (k : String) (v : QBItem)
    (k2 : String) (h : (assocGet m k2).isSome = true) :
    (assocGet (assocPut m k v) k2).isSome = true := by
  rw [assocGet_assocPut]
  split
  · rfl
  · exact h

/-- The code-map component of one map-building step. -/
theorem buildSkuMapsStep_fst (maps : List (String × QBItem) × List (String × QBItem))
    (x : QBItem) :
    (buildSkuMapsStep maps x).1 =
      if itemEligible x then
        (match codeKeyOf x with
         | some k => assocPut maps.1 k x
         | none => maps.1)
      else maps.1 := by
  unfold buildSkuMapsStep
  cases helig : itemEligible x <;> simp [helig]

/-- The name-map component of one map-building step. -/
theorem buildSkuMapsStep_snd (maps : List (String × QBItem) × List (String × QBItem))
    (x : QBItem) :
    (buildSkuMapsStep maps x).2 =
      if itemEligible x then assocPut maps.2 (normalizeString x.Name) x else maps.2 := by
  unfold buildSkuMapsStep
  cases helig : itemEligible x <;> simp [helig]

/-- An eligible item with a given normalized code key guarantees a hit in
the code-indexed map. -/
theorem code_map_hit (qbItems : List QBItem) :
    ∀ (acc : List (String × QBItem) × List (String × QBItem)) (k : String),
      ((∃ it ∈ qbItems, itemEligible it = true ∧ codeKeyOf it = some k) ∨
        (assocGet acc.1 k).isSome = true) →
      (assocGet (qbItems.foldl buildSkuMapsStep acc).1 k).isSome = true := by
  induction qbItems with
  | nil =>
    intro acc k h
    rcases h with ⟨it, hmem, _⟩ | h
    · cases hmem
    · simpa using h
  | cons x rest ih =>
    intro acc k h
    rw [List.foldl_cons]
    refine ih (buildSkuMapsStep acc x) k ?_
    rcases h with ⟨it, hmem, helig, hkey⟩ | hsome
    · rcases List.mem_cons.mp hmem with rfl | hmem2
      · right
        rw [buildSkuMapsStep_fst, if_pos helig, hkey]
        rw [assocGet_assocPut]
        simp
      · exact Or.inl ⟨it, hmem2, helig, hkey⟩
    · right
      rw [buildSkuMapsStep_fst]
      cases helig : itemEligible x with
      | false => simpa using hsome
      | true =>
        rw [if_pos rfl]
        cases hkey : codeKeyOf x with
        | none => simpa using hsome
        | some k2 => exact assocGet_assocPut_isSome _ _ _ _ hsome

/-- An eligible item with a given normalized name guarantees a hit in the
name-indexed map. -/
theorem name_map_hit (qbItems : List QBItem) :
    ∀ (acc : List (String × QBItem) × List (String × QBItem)) (k : String),
      ((∃ it ∈ qbItems, itemEligible it = true ∧ normalizeString it.Name = k) ∨
        (assocGet acc.2 k).isSome = true) →
      (assocGet (qbItems.foldl buildSkuMapsStep acc).2 k).isSome = true := by
  induction qbItems with
  | nil =>
    intro acc k h
    rcases h with ⟨it, hmem, _⟩ | h
    · cases hmem
    · simpa using h
  | cons x rest ih =>
    intro acc k h
    rw [List.foldl_cons]
    refine ih (buildSkuMapsStep acc x) k ?_
    rcases h with ⟨it, hmem, helig, hkey⟩ | hsome
    · rcases List.mem_cons.mp hmem with rfl | hmem2
      · right
        rw [buildSkuMapsStep_snd, if_pos helig, hkey, assocGet_assocPut]
        simp
      · exact Or.inl ⟨it, hmem2, helig, hkey⟩
    · right
      rw [buildSkuMapsStep_snd]
      cases helig : itemEligible x with
      | false => simpa using hsome
      | true =>
        rw [if_pos rfl]
        exact assocGet_assocPut_isSome _ _ _ _ hsome
/-- A fuzzy winner is an eligible fetched item whose recorded score is its
similarity, at or above the 0.8 floor (unless it was already the seed). -/
theorem fuzzyBest_some (n : String) (qbItems : List QBItem) :
    ∀ (acc : Option QBItem × ℚ) (it : QBItem) (s : ℚ),
      qbItems.foldl (fuzzyBestStep n) acc = (some it, s) →
      (it ∈ qbItems ∧ itemEligible it = true ∧ s = stringSimilarity n it.Name ∧
        s ≥ 8 / 10) ∨ acc = (some it, s) := by
  induction qbItems with
  | nil =>
    intro acc it s h
    right
    simpa using h
  | cons x rest ih =>
    intro acc it s h
    rw [List.foldl_cons] at h
    rcases ih (fuzzyBestStep n acc x) it s h with ⟨hmem, hrest⟩ | hstep
    · exact Or.inl ⟨List.mem_cons_of_mem x hmem, hrest⟩
    · unfold fuzzyBestStep at hstep
      cases helig : itemEligible x with
      | false =>
        rw [helig] at hstep
        simp only [Bool.not_false, if_true] at hstep
        exact Or.inr hstep
      | true =>
        rw [helig] at hstep
        simp only [Bool.not_true, Bool.false_eq_true, if_false] at hstep
        by_cases hcond : (stringSimilarity n x.Name > acc.2 ∧ stringSimilarity n x.Name ≥ 8 / 10)
        · rw [if_pos (by simpa using hcond)] at hstep
          rcases Prod.mk.injEq .. ▸ hstep with ⟨h1, h2⟩
          cases Option.some.inj h1
          exact Or.inl ⟨List.mem_cons_self x rest, helig, h2.symm, h2 ▸ hcond.2⟩
        · rw [if_neg (by simpa using hcond)] at hstep
          exact Or.inr hstep

/-- When every eligible item sits below the 0.8 floor, the fuzzy scan keeps
its empty seed. -/
theorem fuzzyBest_all_low (n : String) (qbItems : List QBItem)
    (h : ∀ it ∈ qbItems, itemEligible it = true → stringSimilarity n it.Name < 8 / 10) :
    fuzzyBest qbItems n = (none, 0) := by
  unfold fuzzyBest
  induction qbItems with
  | nil => rfl
  | cons x rest ih =>
    rw [List.foldl_cons]
    have hstep : fuzzyBestStep n (none, 0) x = (none, 0) := by
      unfold fuzzyBestStep
      cases helig : itemEligible x with
      | false => simp
      | true =>
        have hlow := h x (List.mem_cons_self x rest) helig
        have : ¬(stringSimilarity n x.Name ≥ 8 / 10) := not_le.mpr hlow
        simp [this]
    rw [hstep]
    exact ih (fun it hit helig => h it (List.mem_cons_of_mem x hit) helig)

/-- C9: a disconnected remote system or a failing item fetch reports every
SKU unmatched instead of failing; otherwise each SKU is classified against
eligible (active, non-soft-deleted) items: exact normalized-code match ⇒
`exact_code` at 1.0, else exact normalized-name match ⇒ `exact_name` at 0.95,
else the best fuzzy candidate at similarity ≥ 0.8 ⇒ `fuzzy_name` at
similarity × 0.9, else `no_match` at 0. -/
theorem sku_classification (env : SkuMatchEnv) :
    (env.qbConnected = false →
      matchInvoiceSKUsWithQBItems env = env.atekSkus.map (fun sku =>
        { atekSku := sku, qbItem := none, matchType := "no_match", confidence := 0 })) ∧
    (∀ m, env.qbConnected = true → env.qbItemsFetch = .error m →
      matchInvoiceSKUsWithQBItems env = env.atekSkus.map (fun sku =>
        { atekSku := sku, qbItem := none, matchType := "no_match", confidence := 0 })) ∧
    (∀ qbItems, env.qbConnected = true → env.qbItemsFetch = .ok qbItems →
      matchInvoiceSKUsWithQBItems env = env.atekSkus.map
        (classifySKU qbItems (buildSkuMaps qbItems).1 (buildSkuMaps qbItems).2)) ∧
    (∀ qbItems (sku : InvoiceSKU) (c : String),
      sku.code = some c → c ≠ "" →
      (∃ it ∈ qbItems, itemEligible it = true ∧ codeKeyOf it = some (normalizeString c)) →
      (classifySKU qbItems (buildSkuMaps qbItems).1 (buildSkuMaps qbItems).2 sku).matchType =
        "exact_code" ∧
      (classifySKU qbItems (buildSkuMaps qbItems).1 (buildSkuMaps qbItems).2 sku).confidence =
        1) ∧
    (∀ qbItems (sku : InvoiceSKU) (n : String),
      codeLookup (buildSkuMaps qbItems).1 sku = none →
      sku.name = some n → n ≠ "" →
      (∃ it ∈ qbItems, itemEligible it = true ∧ normalizeString it.Name = normalizeString n) →
      (classifySKU qbItems (buildSkuMaps qbItems).1 (buildSkuMaps qbItems).2 sku).matchType =
        "exact_name" ∧
      (classifySKU qbItems (buildSkuMaps qbItems).1 (buildSkuMaps qbItems).2 sku).confidence =
        95 / 100) ∧
    (∀ qbItems (sku : InvoiceSKU) (n : String) (it : QBItem) (s : ℚ),
      codeLookup (buildSkuMaps qbItems).1 sku = none →
      nameLookup (buildSkuMaps qbItems).2 sku = none →
      sku.name = some n → n ≠ "" →
      fuzzyBest qbItems n = (some it, s) →
      it ∈ qbItems ∧ itemEligible it = true ∧ s = stringSimilarity n it.Name ∧ s ≥ 8 / 10 ∧
      (classifySKU qbItems (buildSkuMaps qbItems).1 (buildSkuMaps qbItems).2 sku).matchType =
        "fuzzy_name" ∧
      (classifySKU qbItems (buildSkuMaps qbItems).1 (buildSkuMaps qbItems).2 sku).qbItem =
        some it ∧
      (classifySKU qbItems (buildSkuMaps qbItems).1 (buildSkuMaps qbItems).2 sku).confidence =
        s * (9 / 10)) ∧
    (∀ qbItems (sku : InvoiceSKU) (n : String),
      codeLookup (buildSkuMaps qbItems).1 sku = none →
      nameLookup (buildSkuMaps qbItems).2 sku = none →
      sku.name = some n → n ≠ "" →
      (∀ it ∈ qbItems, itemEligible it = true → stringSimilarity n it.Name < 8 / 10) →
      (classifySKU qbItems (buildSkuMaps qbItems).1 (buildSkuMaps qbItems).2 sku).matchType =
        "no_match" ∧
      (classifySKU qbItems (buildSkuMaps qbItems).1 (buildSkuMaps qbItems).2 sku).confidence =
        0) := by
  refine ⟨?_, ?_, ?_, ?_, ?_, ?_, ?_⟩
  · intro h
    rw [matchInvoiceSKUsWithQBItems, h]
    rfl
  · intro m hconn herr
    rw [matchInvoiceSKUsWithQBItems, hconn, herr]
    rfl
  · intro qbItems hconn hok
    rw [matchInvoiceSKUsWithQBItems, hconn, hok]
    rfl
  · intro qbItems sku c hcode hne hex
    have hsome : (assocGet (buildSkuMaps qbItems).1 (normalizeString c)).isSome = true := by
      rw [buildSkuMaps]
      exact code_map_hit qbItems ([], []) (normalizeString c) (Or.inl hex)
    rcases Option.isSome_iff_exists.mp hsome with ⟨item, hitem⟩
    have hlook : codeLookup (buildSkuMaps qbItems).1 sku = some item := by
      rw [codeLookup, hcode]
      dsimp only
      rw [if_pos hne]
      exact hitem
    rw [classifySKU, hlook]
    exact ⟨rfl, rfl⟩
  · intro qbItems sku n hcodenone hname hne hex
    have hsome : (assocGet (buildSkuMaps qbItems).2 (normalizeString n)).isSome = true := by
      rw [buildSkuMaps]
      exact name_map_hit qbItems ([], []) (normalizeString n) (Or.inl hex)
    rcases Option.isSome_iff_exists.mp hsome with ⟨item, hitem⟩
    have hlook : nameLookup (buildSkuMaps qbItems).2 sku = some item := by
      rw [nameLookup, hname]
      dsimp only
      rw [if_pos hne]
      exact hitem
    rw [classifySKU, hcodenone, hlook]
    exact ⟨rfl, rfl⟩
  · intro qbItems sku n it s hcodenone hnamenone hname hne hbest
    have hprops := fuzzyBest_some n qbItems (none, 0) it s (by rw [← fuzzyBest]; exact hbest)
    rcases hprops with ⟨hmem, helig, hs, hge⟩ | hacc
    · refine ⟨hmem, helig, hs, hge, ?_, ?_, ?_⟩
      · rw [classifySKU, hcodenone, hnamenone, hname]
        dsimp only
        rw [if_pos hne, hbest]
        dsimp only
        rw [if_pos hge]
      · rw [classifySKU, hcodenone, hnamenone, hname]
        dsimp only
        rw [if_pos hne, hbest]
        dsimp only
        rw [if_pos hge]
      · rw [classifySKU, hcodenone, hnamenone, hname]
        dsimp only
        rw [if_pos hne, hbest]
        dsimp only
        rw [if_pos hge]
    · exact absurd (congrArg Prod.fst hacc) (by simp)
  · intro qbItems sku n hcodenone hnamenone hname hne hlow
    have hbest : fuzzyBest qbItems n = (none, 0) := fuzzyBest_all_low n qbItems hlow
    rw [classifySKU, hcodenone, hnamenone, hname]
    dsimp only
    rw [if_pos hne, hbest]
    exact ⟨rfl, rfl⟩

theorem sku_classification_witness :
    matchInvoiceSKUsWithQBItems envC9 =
      [classifySKU [itemHW] (buildSkuMaps [itemHW]).1 (buildSkuMaps [itemHW]).2 skuHW] ∧
    (classifySKU [itemHW] (buildSkuMaps [itemHW]).1
      (buildSkuMaps [itemHW]).2 skuHW).matchType = "exact_code" ∧
    (classifySKU [itemHW] (buildSkuMaps [itemHW]).1
      (buildSkuMaps [itemHW]).2 skuHW).confidence = 1 := by
  have happ := sku_classification envC9
  have h3 := happ.2.2.1 [itemHW] rfl rfl
  have h4 := happ.2.2.2.1 [itemHW] skuHW "HW-100" rfl (by decide)
    ⟨itemHW, by decide, by decide, rfl⟩
  exact ⟨h3, h4.1, h4.2⟩

end AtekQbSync
